import Mathlib

/-!
# Predora resolution/settlement engine — shallow embedding

This file embeds the oracle jobs of `src/index.js` (`autoResolveMarkets`,
`autoResolveQuickPolls`, `autoResolveQuickPlays`) as executable Lean
definitions and proves/refutes the specification claims about them.

Modelling conventions:
* JS numbers are modelled as exact rationals `ℚ` (at all inputs appearing in
  the claims the IEEE-double computations of the source coincide with exact
  rational arithmetic); `Math.floor` is `Int.floor`.
* A JS numeric field that may be absent is `Option ℚ`; the JS defaulting
  idiom `x || d` (which also replaces `0` by `d`) is `jsOr`.
* Firestore document stores are association lists keyed by document id; a
  batch commit is the pure result of applying all the updates, and a thrown
  exception inside a `try` block whose batch is never committed leaves the
  store unchanged.
* Fallible steps return `Except String`; the one per-item throw site modelled
  for quick polls is decoding the stored `createdAt` timestamp
  (`poll.createdAt?.toDate()`), and for standard markets the verifier call
  (`callGoogleApi`), which rethrows service errors.
-/

namespace Predora

/-- JS `x || d` for an optional numeric field: `undefined`/missing and `0` both
fall back to the default. -/
def jsOr : Option ℚ → ℚ → ℚ
  | none, d => d
  | some x, d => if x = 0 then d else x

/-- JS `x || d` for an optional counter field stored as a natural number. -/
def jsOrNat : Option ℕ → ℕ → ℕ
  | none, d => d
  | some x, d => if x = 0 then d else x

/-- A profile / leaderboard document as touched by quick-poll settlement:
`xp` and `streak` fields. -/
structure UserRec where
  xp : ℚ
  streak : ℚ
  deriving DecidableEq, Repr

/-- Read a document from an association-list store. -/
def getRec {α : Type} : List (String × α) → String → Option α
  | [], _ => none
  | e :: rest, uid => if e.1 = uid then some e.2 else getRec rest uid

/-- Update the document with key `uid` in an association-list store. -/
def setRec {α : Type} : List (String × α) → String → (α → α) →
    List (String × α)
  | [], _, _ => []
  | e :: rest, uid, f =>
    if e.1 = uid then (e.1, f e.2) :: setRec rest uid f
    else e :: setRec rest uid f

/-! ## Quick polls (`autoResolveQuickPolls`, src/index.js lines 531–693) -/

/-- Result of `verifyOutcomeWithAI`: the verifier absorbs its own transport
errors and always returns a well-formed record. -/
structure AIResult where
  outcome : String
  confidence : String
  reasoning : String
  deriving DecidableEq, Repr

/-- One entry of the poll's `voters` map. -/
structure VoterData where
  vote : String
  xpStaked : Option ℚ
  deriving DecidableEq, Repr

instance {ε α : Type} [DecidableEq ε] [DecidableEq α] :
    DecidableEq (Except ε α)
  | .ok x, .ok y =>
    if h : x = y then .isTrue (by rw [h]) else .isFalse (by simp [h])
  | .ok _, .error _ => .isFalse (by simp)
  | .error _, .ok _ => .isFalse (by simp)
  | .error x, .error y =>
    if h : x = y then .isTrue (by rw [h]) else .isFalse (by simp [h])

/-- A quick-poll document. `createdAt` is a stored timestamp whose decoding
(`poll.createdAt?.toDate()`) may fail on malformed data (`Except.error`);
a missing timestamp decodes as the epoch `0` (`|| new Date(0)`). -/
structure Poll where
  question : String
  createdAt : Option (Except String ℚ)
  resolutionHours : Option ℚ
  yesVotes : Option ℚ
  noVotes : Option ℚ
  xpStakedYES : Option ℚ
  xpStakedNO : Option ℚ
  voters : Option (List (String × VoterData))
  isResolved : Bool
  retryAttempts : Option ℕ
  winningOutcome : Option String
  aiReasoning : Option String
  aiConfidence : Option String
  deriving DecidableEq, Repr

/-- The two stores written by quick-poll settlement. -/
structure PollState where
  profiles : List (String × UserRec)
  leaderboard : List (String × UserRec)
  deriving DecidableEq, Repr

/-- `poll.createdAt?.toDate() || new Date(0)`. -/
def decodeCreatedAt : Option (Except String ℚ) → Except String ℚ
  | none => .ok 0
  | some r => r

/-- The XP amount credited to one voter by quick-poll settlement
(src/index.js lines 617–625): winners receive
`Math.floor(xpStaked + loserPot * winnerShare)`, losers receive nothing. -/
def voterCredit (winningOutcome : String) (xpStakedYES xpStakedNO : ℚ)
    (voterData : VoterData) : ℚ :=
  if voterData.vote = winningOutcome then
    let xpStaked := jsOr voterData.xpStaked 10
    let winnerPot := if winningOutcome = "YES" then xpStakedYES else xpStakedNO
    let loserPot := if winningOutcome = "YES" then xpStakedNO else xpStakedYES
    let winnerShare := if 0 < winnerPot then xpStaked / winnerPot else 0
    ((⌊xpStaked + loserPot * winnerShare⌋ : ℤ) : ℚ)
  else 0

/-- Settlement writes for one voter (src/index.js lines 616–653): a winner's
profile gets `xp += winnings` and `streak += 1` and the leaderboard copy gets
only `xp += winnings`; a loser's profile and leaderboard copy both get
`streak := 0`. -/
def settleVoter (winningOutcome : String) (xpStakedYES xpStakedNO : ℚ)
    (st : PollState) (entry : String × VoterData) : PollState :=
  let userId := entry.1
  let voterData := entry.2
  if voterData.vote = winningOutcome then
    let winnings := voterCredit winningOutcome xpStakedYES xpStakedNO voterData
    { profiles := setRec st.profiles userId
        (fun r => { xp := r.xp + winnings, streak := r.streak + 1 }),
      leaderboard := setRec st.leaderboard userId
        (fun r => { r with xp := r.xp + winnings }) }
  else
    { profiles := setRec st.profiles userId (fun r => { r with streak := 0 }),
      leaderboard := setRec st.leaderboard userId
        (fun r => { r with streak := 0 }) }

/-- Tie settlement for one voter (src/index.js lines 656–669): the stake is
returned as XP on both the profile and the leaderboard copy. -/
def tieReturnVoter (st : PollState) (entry : String × VoterData) : PollState :=
  let xpStaked := jsOr entry.2.xpStaked 10
  { profiles := setRec st.profiles entry.1
      (fun r => { r with xp := r.xp + xpStaked }),
    leaderboard := setRec st.leaderboard entry.1
      (fun r => { r with xp := r.xp + xpStaked }) }

/-- Marking a poll resolved and distributing the pot
(src/index.js lines 599–672). -/
def settlePoll (p : Poll) (winningOutcome reasoning confidence : String)
    (retryAttempts : ℕ) (st : PollState) : Poll × PollState :=
  let xpStakedYES := jsOr p.xpStakedYES 0
  let xpStakedNO := jsOr p.xpStakedNO 0
  let p2 := { p with
      isResolved := true,
      winningOutcome := some winningOutcome,
      aiReasoning := some reasoning,
      aiConfidence := some confidence,
      retryAttempts := some retryAttempts }
  let st2 :=
    if winningOutcome ≠ "TIE" then
      match p.voters with
      | some voters =>
          voters.foldl (settleVoter winningOutcome xpStakedYES xpStakedNO) st
      | none => st
    else
      match p.voters with
      | some voters => voters.foldl tieReturnVoter st
      | none => st
  (p2, st2)

/-- Processing of one quick poll inside the `autoResolveQuickPolls` loop
(src/index.js lines 551–675). The `isResolved` test is the query filter
`where('isResolved', '==', false)`: resolved polls pass through untouched. -/
def processPollE (now : ℚ) (ai : String → AIResult) (p : Poll)
    (st : PollState) : Except String (Poll × PollState) :=
  if p.isResolved then .ok (p, st) else
  match decodeCreatedAt p.createdAt with
  | .error e => .error e
  | .ok createdAt =>
    let resolutionHours := jsOr p.resolutionHours 24
    let pollExpiryThreshold := now - resolutionHours * 3600000
    if createdAt < pollExpiryThreshold then
      let yesVotes := jsOr p.yesVotes 0
      let noVotes := jsOr p.noVotes 0
      let totalVotes := yesVotes + noVotes
      if totalVotes = 0 then
        .ok ({ p with
                isResolved := true,
                winningOutcome := some "NO_VOTES",
                aiReasoning := some "No votes cast" }, st)
      else
        let aiResult := ai p.question
        let retryAttempts := jsOrNat p.retryAttempts 0
        if aiResult.outcome = "UNKNOWN" ∨ aiResult.confidence = "LOW" then
          if retryAttempts < 5 then
            .ok ({ p with retryAttempts := some (retryAttempts + 1) }, st)
          else
            let fallbackOutcome :=
              if noVotes < yesVotes then "YES"
              else if yesVotes < noVotes then "NO" else "TIE"
            .ok (settlePoll p fallbackOutcome
                  ("AI uncertain after 5 attempts. Majority vote: " ++
                    fallbackOutcome)
                  aiResult.confidence retryAttempts st)
        else
          .ok (settlePoll p aiResult.outcome aiResult.reasoning
                aiResult.confidence retryAttempts st)
    else .ok (p, st)

/-- The quick-poll loop, threading the single write batch through the items;
the first thrown exception aborts the remainder. -/
def goPolls (now : ℚ) (ai : String → AIResult) :
    List Poll → PollState → Except String (List Poll × PollState)
  | [], st => .ok ([], st)
  | p :: rest, st =>
    match processPollE now ai p st with
    | .error e => .error e
    | .ok (p2, st2) =>
      match goPolls now ai rest st2 with
      | .error e => .error e
      | .ok (ps, st3) => .ok (p2 :: ps, st3)

/-- `autoResolveQuickPolls`: the whole job runs inside one `try`/`catch`, and
the single batch is committed only after the whole loop, so any exception
leaves every store untouched. -/
def autoResolveQuickPolls (now : ℚ) (ai : String → AIResult)
    (polls : List Poll) (st : PollState) : List Poll × PollState :=
  match goPolls now ai polls st with
  | .ok r => r
  | .error _ => (polls, st)

/-- The poll-document effect of one scheduled evaluation (the store writes are
dropped; on an exception the uncommitted batch leaves the document as it was). -/
def pollEvalStep (now : ℚ) (ai : String → AIResult) (st : PollState)
    (p : Poll) : Poll :=
  match processPollE now ai p st with
  | .ok r => r.1
  | .error _ => p

/-- Iterated scheduled evaluations of a single quick poll. -/
def pollEvalIter (now : ℚ) (ai : String → AIResult) (st : PollState) :
    ℕ → Poll → Poll
  | 0, p => p
  | k + 1, p => pollEvalIter now ai st k (pollEvalStep now ai st p)

/-! ## Standard markets (`autoResolveMarkets`, src/index.js lines 150–304) -/

/-- One option of a multi-option market. -/
structure MOption where
  id : String
  label : String
  odds : ℚ
  deriving DecidableEq, Repr

/-- A pledge (stake) document. -/
structure Pledge where
  marketId : String
  userId : String
  pick : String
  amountUsd : ℚ
  asset : String
  isResolved : Bool
  isWinner : Option Bool
  payout : Option ℚ
  deriving DecidableEq, Repr

/-- A standard-market document. A missing/null `options` array is modelled as
the empty list; `resolutionDate` is modelled as a day number (the source
compares ISO `YYYY-MM-DD` strings, whose lexicographic order agrees with the
day order). -/
structure StdMarket where
  id : String
  title : String
  marketStructure : Option String
  options : List MOption
  yesPercent : Option ℚ
  noPercent : Option ℚ
  isNoLoss : Bool
  isResolved : Bool
  resolutionDate : ℕ
  winningOutcome : Option String
  deriving DecidableEq, Repr

/-- A profile document as touched by standard-market settlement. -/
structure MProfile where
  balance : ℚ
  bnbBalance : ℚ
  cakeBalance : ℚ
  xp : ℚ
  streak : ℚ
  deriving DecidableEq, Repr

/-- The stores written by standard-market settlement. -/
structure MState where
  profiles : List (String × MProfile)
  leaderboard : List (String × UserRec)
  deriving DecidableEq, Repr

/-- `getMockPrice` (src/index.js lines 797–801). -/
def getMockPrice (asset : String) : ℚ :=
  if asset = "BNB" then 500 else if asset = "CAKE" then 7 / 2 else 1

/-- The balance-field increment selected by `getBalanceField`
(src/index.js lines 803–807). -/
def addBalance (asset : String) (amount : ℚ) (pr : MProfile) : MProfile :=
  if asset = "BNB" then { pr with bnbBalance := pr.bnbBalance + amount }
  else if asset = "CAKE" then { pr with cakeBalance := pr.cakeBalance + amount }
  else { pr with balance := pr.balance + amount }

/-- JS `String.prototype.toUpperCase()` on the character list (equivalent to
`String.toUpper`, spelled structurally so that concrete instances are
kernel-evaluable). -/
def jsToUpper (s : String) : String :=
  ⟨s.data.map Char.toUpper⟩

/-- JS `String.prototype.trim()`: strip leading and trailing whitespace. -/
def jsTrim (s : String) : String :=
  ⟨((s.data.dropWhile Char.isWhitespace).reverse.dropWhile
      Char.isWhitespace).reverse⟩

/-- `outcome.replace(/^["']|["']$/g, '')`: strip one leading and one trailing
quote character. -/
def stripOuterQuotes (s : String) : String :=
  let l1 := match s.data with
    | c :: cs => if c = '\x22' ∨ c = '\x27' then cs else c :: cs
    | [] => []
  let l2 := match l1.reverse with
    | c :: cs => if c = '\x22' ∨ c = '\x27' then cs.reverse else (c :: cs).reverse
    | [] => []
  ⟨l2⟩

/-- Validation of a multi-option verifier response
(src/index.js lines 198–206): any outcome that is neither a valid option id
nor (case-insensitively) `AMBIGUOUS` is replaced by `AMBIGUOUS`. -/
def normalizeMultiOutcome (validOptionIds : List String) (raw : String) :
    String :=
  let w := stripOuterQuotes (jsTrim raw)
  if validOptionIds.contains w ∨ jsToUpper w = "AMBIGUOUS" then w
  else "AMBIGUOUS"

/-- The odds percentage used at settlement (src/index.js lines 249–257). -/
def winningOddsOf (m : StdMarket) (winningOutcome : String) : ℚ :=
  if m.marketStructure = some "multi-option" then
    match m.options.find? (fun opt => opt.id = winningOutcome) with
    | some winningOption => winningOption.odds
    | none => 100
  else if winningOutcome = "YES" then jsOr m.yesPercent 60
  else jsOr m.noPercent 40

/-- `xpChange` for one pledge (src/index.js lines 264–268). -/
def xpChangeOf (isWinner : Bool) (amountUsd : ℚ) : ℤ :=
  if isWinner then
    let base : ℤ := 10 + ⌊amountUsd / 5⌋
    if amountUsd ≤ 50 then base * 5
    else if 1000 ≤ amountUsd then ⌊(base : ℚ) / 2⌋
    else base
  else -10

/-- Settlement writes for one pledge (src/index.js lines 244–288): the pledge
record, the profile (balance, xp, streak) and the leaderboard copy (xp only). -/
def settlePledge (m : StdMarket) (winningOutcome : String) (st : MState)
    (pl : Pledge) : Pledge × MState :=
  let isWinner := pl.pick = winningOutcome
  let winningOdds := winningOddsOf m winningOutcome
  let payoutUsd := if isWinner then pl.amountUsd / (winningOdds / 100) else 0
  let principalReturn := if m.isNoLoss then pl.amountUsd else 0
  let totalReturnUsd := if isWinner then payoutUsd else principalReturn
  let payoutAmount := totalReturnUsd / getMockPrice pl.asset
  let xpChange := xpChangeOf isWinner pl.amountUsd
  let pl2 := { pl with
      isResolved := true,
      isWinner := some isWinner,
      payout := some totalReturnUsd }
  let st2 : MState :=
    { profiles := setRec st.profiles pl.userId (fun pr =>
        let pr1 := addBalance pl.asset payoutAmount pr
        { pr1 with
            xp := pr1.xp + (xpChange : ℚ),
            streak := if isWinner then pr1.streak + 1 else 0 }),
      leaderboard := setRec st.leaderboard pl.userId
        (fun r => { r with xp := r.xp + (xpChange : ℚ) }) }
  (pl2, st2)

/-- Processing of one due market inside the `autoResolveMarkets` loop
(src/index.js lines 175–301): call the verifier (which may throw — the raw
response text is `ai m`), normalize the outcome, and either settle all the
market's unresolved pledges in one batch or skip the market entirely. -/
def processMarketE (ai : StdMarket → Except String String) (m : StdMarket)
    (pledges : List Pledge) (st : MState) :
    Except String (StdMarket × List Pledge × MState) :=
  match ai m with
  | .error e => .error e
  | .ok raw =>
    let winningOutcome :=
      if m.marketStructure = some "multi-option" ∧ m.options ≠ [] then
        normalizeMultiOutcome (m.options.map (fun opt => opt.id)) raw
      else jsToUpper (jsTrim raw)
    let isBinaryResolution := winningOutcome = "YES" ∨ winningOutcome = "NO"
    let isMultiOptionResolution := m.marketStructure = some "multi-option" ∧
      m.options.any (fun opt => opt.id = winningOutcome)
    if isBinaryResolution ∨ isMultiOptionResolution then
      let m2 := { m with
          isResolved := true,
          winningOutcome := some winningOutcome }
      let step := fun (acc : List Pledge × MState) (pl : Pledge) =>
        if pl.marketId = m.id ∧ pl.isResolved = false then
          let r := settlePledge m winningOutcome acc.2 pl
          (acc.1 ++ [r.1], r.2)
        else (acc.1 ++ [pl], acc.2)
      let res := pledges.foldl step ([], st)
      .ok (m2, res.1, res.2)
    else
      .ok (m, pledges, st)

/-- One iteration of the `autoResolveMarkets` loop over the full market store:
resolved markets are excluded by the query filter, not-yet-due markets by the
date filter, and a per-item exception (`catch` at src/index.js line 299)
leaves that market and the stores untouched. -/
def marketStep (today : ℕ) (ai : StdMarket → Except String String)
    (m : StdMarket) (pledges : List Pledge) (st : MState) :
    StdMarket × List Pledge × MState :=
  if m.isResolved then (m, pledges, st)
  else if m.resolutionDate ≤ today then
    match processMarketE ai m pledges st with
    | .ok r => r
    | .error _ => (m, pledges, st)
  else (m, pledges, st)

/-- `autoResolveMarkets`: process every market of the store in order; each
market's settlement is its own batch, committed before the next market. -/
def autoResolveMarkets (today : ℕ) (ai : StdMarket → Except String String) :
    List StdMarket → List Pledge → MState →
    List StdMarket × List Pledge × MState
  | [], pledges, st => ([], pledges, st)
  | m :: rest, pledges, st =>
    let r := marketStep today ai m pledges st
    let rr := autoResolveMarkets today ai rest r.2.1 r.2.2
    (r.1 :: rr.1, rr.2.1, rr.2.2)

/-! ## Quick-play markets (`autoResolveQuickPlays`, src/index.js
lines 696–769) -/

/-- A quick-play market document; `expiresAt` is the stored ISO expiry
timestamp, modelled as a number. -/
structure QuickPlay where
  title : String
  expiresAt : Option ℚ
  isResolved : Bool
  retryAttempts : Option ℕ
  winningOutcome : Option String
  aiReasoning : Option String
  aiConfidence : Option String
  deriving DecidableEq, Repr

/-- Processing of one expired quick-play market
(src/index.js lines 713–761). -/
def processQuickPlay (now : ℚ) (ai : String → AIResult) (m : QuickPlay) :
    QuickPlay :=
  match m.expiresAt with
  | some expiresAt =>
    if expiresAt < now then
      let aiResult := ai m.title
      let retryAttempts := jsOrNat m.retryAttempts 0
      if aiResult.outcome = "UNKNOWN" ∨ aiResult.confidence = "LOW" then
        if retryAttempts < 5 then
          { m with retryAttempts := some (retryAttempts + 1) }
        else
          { m with
              isResolved := true,
              winningOutcome := some "UNRESOLVABLE",
              aiReasoning :=
                some "AI could not determine outcome after 5 attempts",
              aiConfidence := some "LOW" }
      else
        { m with
            isResolved := true,
            winningOutcome := some aiResult.outcome,
            aiReasoning := some aiResult.reasoning,
            aiConfidence := some aiResult.confidence }
    else m
  | none => m

/-- The quick-play document effect of one scheduled evaluation (the query
filter excludes resolved markets). -/
def quickPlayStep (now : ℚ) (ai : String → AIResult) (m : QuickPlay) :
    QuickPlay :=
  if m.isResolved then m else processQuickPlay now ai m

/-- Iterated scheduled evaluations of a single quick-play market. -/
def quickPlayIter (now : ℚ) (ai : String → AIResult) :
    ℕ → QuickPlay → QuickPlay
  | 0, m => m
  | k + 1, m => quickPlayIter now ai k (quickPlayStep now ai m)

/-- The voters on the winning side of a poll. -/
def pollWinners (o : String) (l : List (String × VoterData)) :
    List (String × VoterData) :=
  l.filter (fun e => e.2.vote = o)

/-- Total XP credited by poll settlement to all voters (the per-voter
summand `voterCredit` is exactly the amount `settleVoter` adds to the
voter's profile and leaderboard XP). -/
def totalCredited (o : String) (yP nP : ℚ)
    (l : List (String × VoterData)) : ℚ :=
  (l.map (fun e => voterCredit o yP nP e.2)).sum

/-! ## Store lemmas -/

theorem getRec_setRec_self {α : Type} (s : List (String × α)) (uid : String)
    (f : α → α) : getRec (setRec s uid f) uid = (getRec s uid).map f := by
  induction s with
  | nil => rfl
  | cons e rest ih =>
    by_cases h : e.1 = uid
    · simp [getRec, setRec, h]
    · simp [getRec, setRec, h, ih]

theorem getRec_setRec_ne {α : Type} (s : List (String × α))
    (uid uid' : String) (f : α → α) (h : uid ≠ uid') :
    getRec (setRec s uid' f) uid = getRec s uid := by
  induction s with
  | nil => rfl
  | cons e rest ih =>
    by_cases h1 : e.1 = uid'
    · have h2 : e.1 ≠ uid := by rw [h1]; exact fun hh => h hh.symm
      simp [getRec, setRec, h1, h2, ih, h, Ne.symm h]
    · by_cases h2 : e.1 = uid
      · simp [getRec, setRec, h1, h2, h, Ne.symm h]
      · simp [getRec, setRec, h1, h2, ih, h, Ne.symm h]

/-! ## Quick-poll settlement fold lemmas -/

theorem settleVoter_profiles_ne (o : String) (yP nP : ℚ) (st : PollState)
    (e : String × VoterData) (uid : String) (h : uid ≠ e.1) :
    getRec (settleVoter o yP nP st e).profiles uid =
      getRec st.profiles uid := by
  unfold settleVoter
  by_cases hv : e.2.vote = o <;> simp [hv, getRec_setRec_ne _ _ _ _ h]

theorem settleVoter_leaderboard_ne (o : String) (yP nP : ℚ) (st : PollState)
    (e : String × VoterData) (uid : String) (h : uid ≠ e.1) :
    getRec (settleVoter o yP nP st e).leaderboard uid =
      getRec st.leaderboard uid := by
  unfold settleVoter
  by_cases hv : e.2.vote = o <;> simp [hv, getRec_setRec_ne _ _ _ _ h]

theorem foldl_settleVoter_profiles_notmem (o : String) (yP nP : ℚ)
    (l : List (String × VoterData)) (st : PollState) (uid : String)
    (h : uid ∉ l.map (fun e => e.1)) :
    getRec (l.foldl (settleVoter o yP nP) st).profiles uid =
      getRec st.profiles uid := by
  induction l generalizing st with
  | nil => rfl
  | cons e rest ih =>
    simp only [List.map_cons, List.mem_cons, not_or] at h
    simp only [List.foldl_cons]
    rw [ih _ h.2, settleVoter_profiles_ne _ _ _ _ _ _ h.1]

theorem foldl_settleVoter_leaderboard_notmem (o : String) (yP nP : ℚ)
    (l : List (String × VoterData)) (st : PollState) (uid : String)
    (h : uid ∉ l.map (fun e => e.1)) :
    getRec (l.foldl (settleVoter o yP nP) st).leaderboard uid =
      getRec st.leaderboard uid := by
  induction l generalizing st with
  | nil => rfl
  | cons e rest ih =>
    simp only [List.map_cons, List.mem_cons, not_or] at h
    simp only [List.foldl_cons]
    rw [ih _ h.2, settleVoter_leaderboard_ne _ _ _ _ _ _ h.1]

/-- Net effect of the winner/loser settlement fold on one voter's profile
document, assuming the voter keys are distinct (JS object keys are). -/
theorem foldl_settleVoter_profiles (o : String) (yP nP : ℚ)
    (l : List (String × VoterData)) (st : PollState) (uid : String)
    (v : VoterData) (r : UserRec)
    (hnd : (l.map (fun e => e.1)).Nodup) (hmem : (uid, v) ∈ l)
    (hget : getRec st.profiles uid = some r) :
    getRec (l.foldl (settleVoter o yP nP) st).profiles uid =
      some (if v.vote = o then
              ⟨r.xp + voterCredit o yP nP v, r.streak + 1⟩
            else ⟨r.xp, 0⟩) := by
  induction l generalizing st with
  | nil => cases hmem
  | cons e rest ih =>
    simp only [List.map_cons, List.nodup_cons] at hnd
    rcases List.mem_cons.mp hmem with heq | hmem'
    · subst heq
      simp only [List.foldl_cons]
      rw [foldl_settleVoter_profiles_notmem _ _ _ _ _ _ hnd.1]
      unfold settleVoter
      by_cases hv : v.vote = o
      · simp only [hv, if_true]
        rw [getRec_setRec_self, hget]
        simp [hv]
      · simp only [hv, if_false]
        rw [getRec_setRec_self, hget]
        simp [hv]
    · have hne : uid ≠ e.1 := by
        intro hh
        exact hnd.1 (hh ▸ (List.mem_map.mpr ⟨(uid, v), hmem', rfl⟩))
      simp only [List.foldl_cons]
      exact ih _ hnd.2 hmem'
        (by rw [settleVoter_profiles_ne _ _ _ _ _ _ hne]; exact hget)

/-- Net effect of the winner/loser settlement fold on one voter's leaderboard
document: a winner's leaderboard copy receives the XP winnings but no streak
change; a loser's is reset to streak 0. -/
theorem foldl_settleVoter_leaderboard (o : String) (yP nP : ℚ)
    (l : List (String × VoterData)) (st : PollState) (uid : String)
    (v : VoterData) (r : UserRec)
    (hnd : (l.map (fun e => e.1)).Nodup) (hmem : (uid, v) ∈ l)
    (hget : getRec st.leaderboard uid = some r) :
    getRec (l.foldl (settleVoter o yP nP) st).leaderboard uid =
      some (if v.vote = o then
              ⟨r.xp + voterCredit o yP nP v, r.streak⟩
            else ⟨r.xp, 0⟩) := by
  induction l generalizing st with
  | nil => cases hmem
  | cons e rest ih =>
    simp only [List.map_cons, List.nodup_cons] at hnd
    rcases List.mem_cons.mp hmem with heq | hmem'
    · subst heq
      simp only [List.foldl_cons]
      rw [foldl_settleVoter_leaderboard_notmem _ _ _ _ _ _ hnd.1]
      unfold settleVoter
      by_cases hv : v.vote = o
      · simp only [hv, if_true]
        rw [getRec_setRec_self, hget]
        simp [hv]
      · simp only [hv, if_false]
        rw [getRec_setRec_self, hget]
        simp [hv]
    · have hne : uid ≠ e.1 := by
        intro hh
        exact hnd.1 (hh ▸ (List.mem_map.mpr ⟨(uid, v), hmem', rfl⟩))
      simp only [List.foldl_cons]
      exact ih _ hnd.2 hmem'
        (by rw [settleVoter_leaderboard_ne _ _ _ _ _ _ hne]; exact hget)

theorem tieReturnVoter_profiles_ne (st : PollState) (e : String × VoterData)
    (uid : String) (h : uid ≠ e.1) :
    getRec (tieReturnVoter st e).profiles uid = getRec st.profiles uid := by
  unfold tieReturnVoter
  simp [getRec_setRec_ne _ _ _ _ h]

theorem foldl_tieReturnVoter_profiles_notmem
    (l : List (String × VoterData)) (st : PollState) (uid : String)
    (h : uid ∉ l.map (fun e => e.1)) :
    getRec (l.foldl tieReturnVoter st).profiles uid =
      getRec st.profiles uid := by
  induction l generalizing st with
  | nil => rfl
  | cons e rest ih =>
    simp only [List.map_cons, List.mem_cons, not_or] at h
    simp only [List.foldl_cons]
    rw [ih _ h.2, tieReturnVoter_profiles_ne _ _ _ h.1]

/-- Net effect of the tie fold on one voter's profile: the staked XP is
returned, the streak is untouched. -/
theorem foldl_tieReturnVoter_profiles (l : List (String × VoterData))
    (st : PollState) (uid : String) (v : VoterData) (r : UserRec)
    (hnd : (l.map (fun e => e.1)).Nodup) (hmem : (uid, v) ∈ l)
    (hget : getRec st.profiles uid = some r) :
    getRec (l.foldl tieReturnVoter st).profiles uid =
      some ⟨r.xp + jsOr v.xpStaked 10, r.streak⟩ := by
  induction l generalizing st with
  | nil => cases hmem
  | cons e rest ih =>
    simp only [List.map_cons, List.nodup_cons] at hnd
    rcases List.mem_cons.mp hmem with heq | hmem'
    · subst heq
      simp only [List.foldl_cons]
      rw [foldl_tieReturnVoter_profiles_notmem _ _ _ hnd.1]
      unfold tieReturnVoter
      simp only
      rw [getRec_setRec_self, hget]
      rfl
    · have hne : uid ≠ e.1 := by
        intro hh
        exact hnd.1 (hh ▸ (List.mem_map.mpr ⟨(uid, v), hmem', rfl⟩))
      simp only [List.foldl_cons]
      exact ih _ hnd.2 hmem'
        (by rw [tieReturnVoter_profiles_ne _ _ _ hne]; exact hget)

/-! ## Conservation arithmetic -/

theorem voterCredit_loser (o : String) (yP nP : ℚ) (v : VoterData)
    (h : v.vote ≠ o) : voterCredit o yP nP v = 0 := by
  simp [voterCredit, h]

theorem totalCredited_eq_winners (o : String) (yP nP : ℚ)
    (l : List (String × VoterData)) :
    totalCredited o yP nP l = totalCredited o yP nP (pollWinners o l) := by
  induction l with
  | nil => rfl
  | cons e rest ih =>
    by_cases h : e.2.vote = o
    · simp only [totalCredited, pollWinners] at ih ⊢
      simp [List.filter_cons, h, ih]
    · simp only [totalCredited, pollWinners] at ih ⊢
      simp [List.filter_cons, h, ih, voterCredit_loser _ _ _ _ h]

/-- Truncated proportional distribution: `∑ ⌊c * xᵢ⌋` is at most `c * ∑ xᵢ`
and falls short of it by less than the number of summands. -/
theorem floorsum_bounds (c : ℚ) (xs : List ℚ) :
    ((xs.map (fun x => ((⌊c * x⌋ : ℤ) : ℚ))).sum ≤ c * xs.sum) ∧
    (c * xs.sum - xs.length ≤ (xs.map (fun x => ((⌊c * x⌋ : ℤ) : ℚ))).sum) := by
  induction xs with
  | nil => simp
  | cons x rest ih =>
    simp only [List.map_cons, List.sum_cons, List.length_cons]
    constructor
    · have h1 : ((⌊c * x⌋ : ℤ) : ℚ) ≤ c * x := Int.floor_le _
      calc ((⌊c * x⌋ : ℤ) : ℚ) + (rest.map _).sum
          ≤ c * x + c * rest.sum := add_le_add h1 ih.1
        _ = c * (x + rest.sum) := by ring
    · have h1 : c * x - 1 ≤ ((⌊c * x⌋ : ℤ) : ℚ) :=
        le_of_lt (Int.sub_one_lt_floor _)
      have h2 := ih.2
      push_cast
      push_cast at h2
      nlinarith [h1, h2]

/-- For a winning voter the credited amount is `⌊c * stake⌋` with
`c = 1 + loserPot / winnerPot`. -/
theorem voterCredit_winner_eq (o : String) (yP nP : ℚ) (v : VoterData)
    (hv : v.vote = o) (ho : o = "YES" ∨ o = "NO")
    (hW : 0 < (if o = "YES" then yP else nP)) :
    voterCredit o yP nP v =
      ((⌊(1 + (if o = "YES" then nP else yP) / (if o = "YES" then yP else nP))
          * jsOr v.xpStaked 10⌋ : ℤ) : ℚ) := by
  rcases ho with ho | ho
  · subst ho
    have hW' : 0 < yP := by simpa using hW
    have hWne : yP ≠ 0 := ne_of_gt hW'
    have harg : jsOr v.xpStaked 10 + nP * (jsOr v.xpStaked 10 / yP) =
        (1 + nP / yP) * jsOr v.xpStaked 10 := by
      field_simp
      ring
    unfold voterCredit
    simp only [hv, if_true, eq_self_iff_true]
    rw [if_pos hW', harg]
  · subst ho
    have hno : ¬ (("NO" : String) = "YES") := by decide
    have hW' : 0 < nP := by
      simpa [eq_false hno] using hW
    have hWne : nP ≠ 0 := ne_of_gt hW'
    have harg : jsOr v.xpStaked 10 + yP * (jsOr v.xpStaked 10 / nP) =
        (1 + yP / nP) * jsOr v.xpStaked 10 := by
      field_simp
      ring
    unfold voterCredit
    simp only [hv, if_true, eq_self_iff_true, eq_false hno, if_false]
    rw [if_pos hW', harg]

/-- C1 (amended): for a resolved quick poll with winning outcome YES or NO
whose recorded winner-side staked total equals the sum of the winning
voters' stakes and is positive, the total XP credited at settlement lies
between `P - (number of winners)` and `P`, where `P` is the yes-side plus
no-side staked total; settlement never distributes more than `P`. -/
theorem C1_quick_poll_conservation (o : String) (yP nP : ℚ)
    (l : List (String × VoterData)) (ho : o = "YES" ∨ o = "NO")
    (hsum : ((pollWinners o l).map (fun e => jsOr e.2.xpStaked 10)).sum =
      (if o = "YES" then yP else nP))
    (hW : 0 < (if o = "YES" then yP else nP)) :
    yP + nP - (pollWinners o l).length ≤ totalCredited o yP nP l ∧
    totalCredited o yP nP l ≤ yP + nP := by
  have hWne : (if o = "YES" then yP else nP) ≠ 0 := ne_of_gt hW
  have hWL : (if o = "YES" then yP else nP) + (if o = "YES" then nP else yP) =
      yP + nP := by
    by_cases h : o = "YES"
    · simp [h]
    · simp [h]
      ring
  rw [totalCredited_eq_winners]
  have hvote : ∀ e ∈ pollWinners o l, e.2.vote = o := by
    intro e he
    have := List.mem_filter.mp he
    simpa using this.2
  have hcred : (pollWinners o l).map (fun e => voterCredit o yP nP e.2) =
      ((pollWinners o l).map (fun e => jsOr e.2.xpStaked 10)).map
        (fun x => ((⌊(1 + (if o = "YES" then nP else yP) /
            (if o = "YES" then yP else nP)) * x⌋ : ℤ) : ℚ)) := by
    rw [List.map_map]
    apply List.map_congr_left
    intro e he
    exact voterCredit_winner_eq o yP nP e.2 (hvote e he) ho hW
  have hb := floorsum_bounds
    (1 + (if o = "YES" then nP else yP) / (if o = "YES" then yP else nP))
    ((pollWinners o l).map (fun e => jsOr e.2.xpStaked 10))
  rw [hsum] at hb
  have hcW : (1 + (if o = "YES" then nP else yP) /
      (if o = "YES" then yP else nP)) * (if o = "YES" then yP else nP) =
      yP + nP := by
    rw [add_mul, one_mul, div_mul_eq_mul_div, mul_div_assoc, div_self hWne,
      mul_one, hWL]
  rw [hcW] at hb
  have hlen : ((pollWinners o l).map (fun e => jsOr e.2.xpStaked 10)).length =
      (pollWinners o l).length := List.length_map _ _
  rw [hlen] at hb
  unfold totalCredited
  rw [hcred]
  exact ⟨hb.2, hb.1⟩

/-- Witness for C1: a single YES voter staking the whole 300-point YES pot
against a 100-point NO pot receives 400, i.e. the full pot `P = 400`. -/
theorem C1_quick_poll_conservation_witness :
    (((pollWinners "YES" [("a", ⟨"YES", some 300⟩)]).map
        (fun e => jsOr e.2.xpStaked 10)).sum =
      (if "YES" = "YES" then (300 : ℚ) else 100)) ∧
    ((300 : ℚ) + 100 -
        (pollWinners "YES" [("a", ⟨"YES", some 300⟩)]).length ≤
      totalCredited "YES" 300 100 [("a", ⟨"YES", some 300⟩)] ∧
      totalCredited "YES" 300 100 [("a", ⟨"YES", some 300⟩)] ≤ 300 + 100) :=
  ⟨by norm_num [pollWinners, jsOr],
    C1_quick_poll_conservation "YES" 300 100 [("a", ⟨"YES", some 300⟩)]
      (Or.inl rfl) (by norm_num [pollWinners, jsOr]) (by norm_num)⟩

/-- Counterexample to C1 as stated: a due poll with two NO votes (100 staked
points on NO, none on YES) that the verifier confidently resolves YES is
settled with zero winners, crediting 0 of the pot `P = 100`; the shortfall
`P - 0 ≤ 0` fails, so conservation does not hold without the amended
winner-side hypotheses. -/
theorem C1_conservation_counterexample :
    processPollE 86400001 (fun _ => ⟨"YES", "HIGH", "r"⟩)
      ⟨"q", some (.ok 0), some 1, some 0, some 2, some 0, some 100,
        some [("a", ⟨"NO", some 100⟩)], false, none, none, none, none⟩
      ⟨[("a", ⟨5, 3⟩)], [("a", ⟨5, 3⟩)]⟩ =
      .ok (⟨"q", some (.ok 0), some 1, some 0, some 2, some 0, some 100,
          some [("a", ⟨"NO", some 100⟩)], true, some 0, some "YES", some "r",
          some "HIGH"⟩,
        ⟨[("a", ⟨5, 0⟩)], [("a", ⟨5, 0⟩)]⟩) ∧
    totalCredited "YES" 0 100 [("a", ⟨"NO", some 100⟩)] = 0 ∧
    ¬((0 : ℚ) + 100 -
        (pollWinners "YES" [("a", ⟨"NO", some 100⟩)]).length ≤
      totalCredited "YES" 0 100 [("a", ⟨"NO", some 100⟩)]) := by
  refine ⟨?_, ?_, ?_⟩
  · norm_num [processPollE, decodeCreatedAt, jsOr, jsOrNat, settlePoll,
      settleVoter, voterCredit, setRec]
    simp
  · simp [totalCredited, voterCredit]
  · simp [totalCredited, voterCredit, pollWinners]

/-! ## Retry-governor stepping lemmas -/

/-- A due, voted-on poll with an indecisive verifier result and fewer than 5
recorded retries is deferred: only `retryAttempts` is incremented. -/
theorem pollEvalStep_defer (now : ℚ) (ai : String → AIResult) (st : PollState)
    (p : Poll) (t : ℚ) (n : ℕ)
    (hnr : p.isResolved = false)
    (hcr : p.createdAt = some (.ok t))
    (hdue : t < now - jsOr p.resolutionHours 24 * 3600000)
    (hv : jsOr p.yesVotes 0 + jsOr p.noVotes 0 ≠ 0)
    (hai : (ai p.question).outcome = "UNKNOWN" ∨
      (ai p.question).confidence = "LOW")
    (hra : jsOrNat p.retryAttempts 0 = n) (hn : n < 5) :
    pollEvalStep now ai st p = { p with retryAttempts := some (n + 1) } := by
  unfold pollEvalStep processPollE
  rw [hnr, hcr]
  simp only [Bool.false_eq_true, if_false, decodeCreatedAt, if_pos hdue,
    if_neg hv, hra, if_pos hn]
  rw [if_pos hai]

/-- A due, voted-on poll with an indecisive verifier result and at least 5
recorded retries is resolved by the majority-vote fallback. -/
theorem pollEvalStep_fallback (now : ℚ) (ai : String → AIResult)
    (st : PollState) (p : Poll) (t : ℚ)
    (hnr : p.isResolved = false)
    (hcr : p.createdAt = some (.ok t))
    (hdue : t < now - jsOr p.resolutionHours 24 * 3600000)
    (hv : jsOr p.yesVotes 0 + jsOr p.noVotes 0 ≠ 0)
    (hai : (ai p.question).outcome = "UNKNOWN" ∨
      (ai p.question).confidence = "LOW")
    (hra : ¬ jsOrNat p.retryAttempts 0 < 5) :
    pollEvalStep now ai st p =
      (settlePoll p
        (if jsOr p.noVotes 0 < jsOr p.yesVotes 0 then "YES"
         else if jsOr p.yesVotes 0 < jsOr p.noVotes 0 then "NO" else "TIE")
        ("AI uncertain after 5 attempts. Majority vote: " ++
          (if jsOr p.noVotes 0 < jsOr p.yesVotes 0 then "YES"
           else if jsOr p.yesVotes 0 < jsOr p.noVotes 0 then "NO" else "TIE"))
        (ai p.question).confidence (jsOrNat p.retryAttempts 0) st).1 := by
  unfold pollEvalStep processPollE
  rw [hnr, hcr]
  simp only [Bool.false_eq_true, if_false, decodeCreatedAt, if_pos hdue,
    if_neg hv, if_neg hra]
  rw [if_pos hai]

/-- Applying one more scheduled evaluation on the outside. -/
theorem pollEvalIter_succ_right (now : ℚ) (ai : String → AIResult)
    (st : PollState) (k : ℕ) (p : Poll) :
    pollEvalIter now ai st (k + 1) p =
      pollEvalStep now ai st (pollEvalIter now ai st k p) := by
  induction k generalizing p with
  | zero => rfl
  | succ k ih =>
    show pollEvalIter now ai st (k + 1) (pollEvalStep now ai st p) = _
    rw [ih]
    rfl

/-- A due quick-play market with an indecisive verifier result and fewer
than 5 recorded retries is deferred: only `retryAttempts` is incremented. -/
theorem quickPlayStep_defer (now : ℚ) (ai : String → AIResult)
    (qp : QuickPlay) (exp : ℚ) (n : ℕ)
    (hnr : qp.isResolved = false)
    (hexp : qp.expiresAt = some exp) (hdue : exp < now)
    (hai : (ai qp.title).outcome = "UNKNOWN" ∨
      (ai qp.title).confidence = "LOW")
    (hra : jsOrNat qp.retryAttempts 0 = n) (hn : n < 5) :
    quickPlayStep now ai qp = { qp with retryAttempts := some (n + 1) } := by
  unfold quickPlayStep processQuickPlay
  rw [hnr, hexp]
  simp only [Bool.false_eq_true, if_false, if_pos hdue, hra, if_pos hn]
  rw [if_pos hai]

/-- A due quick-play market with an indecisive verifier result and at least 5
recorded retries is resolved as `UNRESOLVABLE`. -/
theorem quickPlayStep_unresolvable (now : ℚ) (ai : String → AIResult)
    (qp : QuickPlay) (exp : ℚ)
    (hnr : qp.isResolved = false)
    (hexp : qp.expiresAt = some exp) (hdue : exp < now)
    (hai : (ai qp.title).outcome = "UNKNOWN" ∨
      (ai qp.title).confidence = "LOW")
    (hra : ¬ jsOrNat qp.retryAttempts 0 < 5) :
    quickPlayStep now ai qp = { qp with
      isResolved := true,
      winningOutcome := some "UNRESOLVABLE",
      aiReasoning := some "AI could not determine outcome after 5 attempts",
      aiConfidence := some "LOW" } := by
  unfold quickPlayStep processQuickPlay
  rw [hnr, hexp]
  simp only [Bool.false_eq_true, if_false, if_pos hdue, if_neg hra]
  rw [if_pos hai]

/-- Applying one more scheduled evaluation on the outside. -/
theorem quickPlayIter_succ_right (now : ℚ) (ai : String → AIResult) (k : ℕ)
    (qp : QuickPlay) :
    quickPlayIter now ai (k + 1) qp =
      quickPlayStep now ai (quickPlayIter now ai k qp) := by
  induction k generalizing qp with
  | zero => rfl
  | succ k ih =>
    show quickPlayIter now ai (k + 1) (quickPlayStep now ai qp) = _
    rw [ih]
    rfl

/-- C3: a due quick poll (with votes) and a due quick-play market whose
verifier is indecisive (UNKNOWN or LOW confidence) on every evaluation,
starting from `retryAttempts = 0`, are left unresolved with `retryAttempts`
incremented to `k` by each of the first 5 due evaluations (`k ≤ 5`), and are
resolved by the fallback rule exactly on the 6th due evaluation. -/
theorem C3_retry_bound (now : ℚ) (ai : String → AIResult) (st : PollState)
    (p : Poll) (t : ℚ) (qp : QuickPlay) (exp : ℚ)
    (hind : ∀ q, (ai q).outcome = "UNKNOWN" ∨ (ai q).confidence = "LOW")
    (hnr : p.isResolved = false)
    (hcr : p.createdAt = some (.ok t))
    (hdue : t < now - jsOr p.resolutionHours 24 * 3600000)
    (hv : jsOr p.yesVotes 0 + jsOr p.noVotes 0 ≠ 0)
    (hra : jsOrNat p.retryAttempts 0 = 0)
    (hqnr : qp.isResolved = false)
    (hqexp : qp.expiresAt = some exp)
    (hqdue : exp < now)
    (hqra : jsOrNat qp.retryAttempts 0 = 0) :
    (∀ k, k ≤ 5 → (pollEvalIter now ai st k p).isResolved = false ∧
        jsOrNat (pollEvalIter now ai st k p).retryAttempts 0 = k) ∧
    (pollEvalIter now ai st 6 p).isResolved = true ∧
    (∀ k, k ≤ 5 → (quickPlayIter now ai k qp).isResolved = false ∧
        jsOrNat (quickPlayIter now ai k qp).retryAttempts 0 = k) ∧
    (quickPlayIter now ai 6 qp).isResolved = true := by
  have step0 : pollEvalStep now ai st p = { p with retryAttempts := some 1 } :=
    pollEvalStep_defer now ai st p t 0 hnr hcr hdue hv (hind p.question) hra
      (by norm_num)
  have stepj : ∀ j : ℕ, 1 ≤ j → j < 5 →
      pollEvalStep now ai st { p with retryAttempts := some j } =
        { p with retryAttempts := some (j + 1) } := by
    intro j h1 h5
    exact pollEvalStep_defer now ai st { p with retryAttempts := some j } t j
      hnr hcr hdue hv (hind p.question)
      (by simp [jsOrNat]; omega) h5
  have e1 : pollEvalIter now ai st 1 p = { p with retryAttempts := some 1 } := by
    rw [pollEvalIter_succ_right]
    exact step0
  have e2 : pollEvalIter now ai st 2 p = { p with retryAttempts := some 2 } := by
    rw [pollEvalIter_succ_right, e1]
    exact stepj 1 (by norm_num) (by norm_num)
  have e3 : pollEvalIter now ai st 3 p = { p with retryAttempts := some 3 } := by
    rw [pollEvalIter_succ_right, e2]
    exact stepj 2 (by norm_num) (by norm_num)
  have e4 : pollEvalIter now ai st 4 p = { p with retryAttempts := some 4 } := by
    rw [pollEvalIter_succ_right, e3]
    exact stepj 3 (by norm_num) (by norm_num)
  have e5 : pollEvalIter now ai st 5 p = { p with retryAttempts := some 5 } := by
    rw [pollEvalIter_succ_right, e4]
    exact stepj 4 (by norm_num) (by norm_num)
  have e6 : (pollEvalIter now ai st 6 p).isResolved = true := by
    rw [pollEvalIter_succ_right, e5]
    rw [pollEvalStep_fallback now ai st { p with retryAttempts := some 5 } t
      hnr hcr hdue hv (hind p.question) (by simp [jsOrNat])]
    simp [settlePoll]
  have qstep0 : quickPlayStep now ai qp =
      { qp with retryAttempts := some 1 } :=
    quickPlayStep_defer now ai qp exp 0 hqnr hqexp hqdue (hind qp.title) hqra
      (by norm_num)
  have qstepj : ∀ j : ℕ, 1 ≤ j → j < 5 →
      quickPlayStep now ai { qp with retryAttempts := some j } =
        { qp with retryAttempts := some (j + 1) } := by
    intro j h1 h5
    exact quickPlayStep_defer now ai { qp with retryAttempts := some j } exp j
      hqnr hqexp hqdue (hind qp.title)
      (by simp [jsOrNat]; omega) h5
  have f1 : quickPlayIter now ai 1 qp = { qp with retryAttempts := some 1 } := by
    rw [quickPlayIter_succ_right]
    exact qstep0
  have f2 : quickPlayIter now ai 2 qp = { qp with retryAttempts := some 2 } := by
    rw [quickPlayIter_succ_right, f1]
    exact qstepj 1 (by norm_num) (by norm_num)
  have f3 : quickPlayIter now ai 3 qp = { qp with retryAttempts := some 3 } := by
    rw [quickPlayIter_succ_right, f2]
    exact qstepj 2 (by norm_num) (by norm_num)
  have f4 : quickPlayIter now ai 4 qp = { qp with retryAttempts := some 4 } := by
    rw [quickPlayIter_succ_right, f3]
    exact qstepj 3 (by norm_num) (by norm_num)
  have f5 : quickPlayIter now ai 5 qp = { qp with retryAttempts := some 5 } := by
    rw [quickPlayIter_succ_right, f4]
    exact qstepj 4 (by norm_num) (by norm_num)
  have f6 : (quickPlayIter now ai 6 qp).isResolved = true := by
    rw [quickPlayIter_succ_right, f5]
    rw [quickPlayStep_unresolvable now ai { qp with retryAttempts := some 5 }
      exp hqnr hqexp hqdue (hind qp.title) (by simp [jsOrNat])]
  refine ⟨?_, e6, ?_, f6⟩
  · intro k hk
    interval_cases k
    · exact ⟨hnr, hra⟩
    · rw [e1]; exact ⟨hnr, by simp [jsOrNat]⟩
    · rw [e2]; exact ⟨hnr, by simp [jsOrNat]⟩
    · rw [e3]; exact ⟨hnr, by simp [jsOrNat]⟩
    · rw [e4]; exact ⟨hnr, by simp [jsOrNat]⟩
    · rw [e5]; exact ⟨hnr, by simp [jsOrNat]⟩
  · intro k hk
    interval_cases k
    · exact ⟨hqnr, hqra⟩
    · rw [f1]; exact ⟨hqnr, by simp [jsOrNat]⟩
    · rw [f2]; exact ⟨hqnr, by simp [jsOrNat]⟩
    · rw [f3]; exact ⟨hqnr, by simp [jsOrNat]⟩
    · rw [f4]; exact ⟨hqnr, by simp [jsOrNat]⟩
    · rw [f5]; exact ⟨hqnr, by simp [jsOrNat]⟩

/-- Witness for C3 at a concrete due poll and quick-play market with a
constantly-indecisive verifier. -/
theorem C3_retry_bound_witness :
    (∀ k, k ≤ 5 →
      (pollEvalIter 10000000 (fun _ => ⟨"UNKNOWN", "LOW", "x"⟩) ⟨[], []⟩ k
        ⟨"q", some (.ok 0), some 1, some 2, some 1, some 20, some 10,
          some [], false, none, none, none, none⟩).isResolved = false ∧
      jsOrNat (pollEvalIter 10000000 (fun _ => ⟨"UNKNOWN", "LOW", "x"⟩)
        ⟨[], []⟩ k
        ⟨"q", some (.ok 0), some 1, some 2, some 1, some 20, some 10,
          some [], false, none, none, none, none⟩).retryAttempts 0 = k) ∧
    (pollEvalIter 10000000 (fun _ => ⟨"UNKNOWN", "LOW", "x"⟩) ⟨[], []⟩ 6
      ⟨"q", some (.ok 0), some 1, some 2, some 1, some 20, some 10,
        some [], false, none, none, none, none⟩).isResolved = true ∧
    (∀ k, k ≤ 5 →
      (quickPlayIter 10000000 (fun _ => ⟨"UNKNOWN", "LOW", "x"⟩) k
        ⟨"t", some 5, false, none, none, none, none⟩).isResolved = false ∧
      jsOrNat (quickPlayIter 10000000 (fun _ => ⟨"UNKNOWN", "LOW", "x"⟩) k
        ⟨"t", some 5, false, none, none, none, none⟩).retryAttempts 0 = k) ∧
    (quickPlayIter 10000000 (fun _ => ⟨"UNKNOWN", "LOW", "x"⟩) 6
      ⟨"t", some 5, false, none, none, none, none⟩).isResolved = true :=
  C3_retry_bound 10000000 (fun _ => ⟨"UNKNOWN", "LOW", "x"⟩) ⟨[], []⟩
    ⟨"q", some (.ok 0), some 1, some 2, some 1, some 20, some 10,
      some [], false, none, none, none, none⟩ 0
    ⟨"t", some 5, false, none, none, none, none⟩ 5
    (fun _ => Or.inl rfl) rfl rfl (by norm_num [jsOr])
    (by norm_num [jsOr]) rfl rfl rfl (by norm_num) rfl

/-- C5: when a due quick poll settles with winning outcome YES or NO
(positive winner-side pot, distinct voter keys), each winning voter's profile
is credited `⌊own stake + (own stake / winner-side staked total) ×
loser-side staked total⌋` XP and its streak is incremented, while each losing
voter is credited 0 additional XP and has its streak reset to 0 (on profile
and leaderboard alike). -/
theorem C5_quick_poll_payout
    (now : ℚ) (ai : String → AIResult) (p : Poll) (st : PollState) (t : ℚ)
    (o c rs : String) (l : List (String × VoterData)) (uid : String)
    (v : VoterData) (rp rl : UserRec)
    (hnr : p.isResolved = false)
    (hcr : p.createdAt = some (.ok t))
    (hdue : t < now - jsOr p.resolutionHours 24 * 3600000)
    (hv : jsOr p.yesVotes 0 + jsOr p.noVotes 0 ≠ 0)
    (hout : (ai p.question).outcome = o)
    (hconf : (ai p.question).confidence = c)
    (hreas : (ai p.question).reasoning = rs)
    (hdec : ¬ (o = "UNKNOWN" ∨ c = "LOW"))
    (ho : o = "YES" ∨ o = "NO")
    (hvl : p.voters = some l)
    (hnd : (l.map (fun e => e.1)).Nodup)
    (hmem : (uid, v) ∈ l)
    (hW : 0 < (if o = "YES" then jsOr p.xpStakedYES 0 else jsOr p.xpStakedNO 0))
    (hgp : getRec st.profiles uid = some rp)
    (hgl : getRec st.leaderboard uid = some rl) :
    ∃ p2 st2, processPollE now ai p st = .ok (p2, st2) ∧
      p2.isResolved = true ∧ p2.winningOutcome = some o ∧
      (v.vote = o →
        getRec st2.profiles uid = some
          ⟨rp.xp + ((⌊jsOr v.xpStaked 10 +
              jsOr v.xpStaked 10 /
                (if o = "YES" then jsOr p.xpStakedYES 0
                 else jsOr p.xpStakedNO 0) *
                (if o = "YES" then jsOr p.xpStakedNO 0
                 else jsOr p.xpStakedYES 0)⌋ : ℤ) : ℚ),
            rp.streak + 1⟩) ∧
      (v.vote ≠ o →
        getRec st2.profiles uid = some ⟨rp.xp, 0⟩ ∧
        getRec st2.leaderboard uid = some ⟨rl.xp, 0⟩) := by
  have hone : o ≠ "TIE" := by
    rcases ho with h | h <;> subst h <;> decide
  have hrun : processPollE now ai p st =
      .ok (settlePoll p o rs c (jsOrNat p.retryAttempts 0) st) := by
    unfold processPollE
    rw [hnr, hcr]
    simp only [Bool.false_eq_true, if_false, decodeCreatedAt, if_pos hdue,
      if_neg hv, hout, hconf, hreas]
    rw [if_neg hdec]
  have hst2 : (settlePoll p o rs c (jsOrNat p.retryAttempts 0) st).2 =
      l.foldl (settleVoter o (jsOr p.xpStakedYES 0) (jsOr p.xpStakedNO 0))
        st := by
    simp only [settlePoll, hvl]
    rw [if_pos hone]
  refine ⟨(settlePoll p o rs c (jsOrNat p.retryAttempts 0) st).1,
    (settlePoll p o rs c (jsOrNat p.retryAttempts 0) st).2, ?_, ?_, ?_, ?_, ?_⟩
  · rw [hrun]
  · simp [settlePoll]
  · simp [settlePoll]
  · intro hvv
    rw [hst2, foldl_settleVoter_profiles o (jsOr p.xpStakedYES 0)
      (jsOr p.xpStakedNO 0) l st uid v rp hnd hmem hgp]
    rw [if_pos hvv]
    have hcredit : voterCredit o (jsOr p.xpStakedYES 0) (jsOr p.xpStakedNO 0)
        v = ((⌊jsOr v.xpStaked 10 +
          jsOr v.xpStaked 10 /
            (if o = "YES" then jsOr p.xpStakedYES 0
             else jsOr p.xpStakedNO 0) *
            (if o = "YES" then jsOr p.xpStakedNO 0
             else jsOr p.xpStakedYES 0)⌋ : ℤ) : ℚ) := by
      simp only [voterCredit]
      rw [if_pos hvv, if_pos hW]
      congr 2
      ring
    rw [hcredit]
  · intro hvv
    constructor
    · rw [hst2, foldl_settleVoter_profiles o (jsOr p.xpStakedYES 0)
        (jsOr p.xpStakedNO 0) l st uid v rp hnd hmem hgp]
      rw [if_neg hvv]
    · rw [hst2, foldl_settleVoter_leaderboard o (jsOr p.xpStakedYES 0)
        (jsOr p.xpStakedNO 0) l st uid v rl hnd hmem hgl]
      rw [if_neg hvv]

/-- Witness for C5: the spec scenario — `yesStaked = 300`, `noStaked = 100`,
YES wins; the voter who staked 30 on YES is credited 40 XP, the voter who
staked 50 on NO gets nothing and a streak reset. -/
theorem C5_quick_poll_payout_witness :
    (∃ p2 st2, processPollE 90000000 (fun _ => ⟨"YES", "HIGH", "ok"⟩)
        ⟨"q", some (.ok 0), some 1, some 10, some 2, some 300, some 100,
          some [("w", ⟨"YES", some 30⟩), ("z", ⟨"NO", some 50⟩)],
          false, none, none, none, none⟩
        ⟨[("w", ⟨7, 2⟩), ("z", ⟨9, 4⟩)], [("w", ⟨7, 2⟩), ("z", ⟨9, 4⟩)]⟩ =
        .ok (p2, st2) ∧
      p2.isResolved = true ∧ p2.winningOutcome = some "YES" ∧
      ((⟨"YES", some 30⟩ : VoterData).vote = "YES" →
        getRec st2.profiles "w" = some
          ⟨(7 : ℚ) + ((⌊jsOr (some (30 : ℚ)) 10 +
              jsOr (some (30 : ℚ)) 10 /
                (if ("YES" : String) = "YES" then jsOr (some (300 : ℚ)) 0
                 else jsOr (some (100 : ℚ)) 0) *
                (if ("YES" : String) = "YES" then jsOr (some (100 : ℚ)) 0
                 else jsOr (some (300 : ℚ)) 0)⌋ : ℤ) : ℚ),
            (2 : ℚ) + 1⟩) ∧
      ((⟨"YES", some 30⟩ : VoterData).vote ≠ "YES" →
        getRec st2.profiles "w" = some ⟨7, 0⟩ ∧
        getRec st2.leaderboard "w" = some ⟨7, 0⟩)) ∧
    ((⌊(30 : ℚ) + 30 / 300 * 100⌋ : ℤ) : ℚ) = 40 :=
  ⟨C5_quick_poll_payout 90000000 (fun _ => ⟨"YES", "HIGH", "ok"⟩)
      ⟨"q", some (.ok 0), some 1, some 10, some 2, some 300, some 100,
        some [("w", ⟨"YES", some 30⟩), ("z", ⟨"NO", some 50⟩)],
        false, none, none, none, none⟩
      ⟨[("w", ⟨7, 2⟩), ("z", ⟨9, 4⟩)], [("w", ⟨7, 2⟩), ("z", ⟨9, 4⟩)]⟩
      0 "YES" "HIGH" "ok"
      [("w", ⟨"YES", some 30⟩), ("z", ⟨"NO", some 50⟩)] "w"
      ⟨"YES", some 30⟩ ⟨7, 2⟩ ⟨7, 2⟩
      rfl rfl (by norm_num [jsOr]) (by norm_num [jsOr]) rfl rfl rfl
      (by decide) (Or.inl rfl) rfl (by decide) (by decide)
      (by norm_num [jsOr]) (by decide) (by decide),
    by norm_num⟩

/-- C2: the code contradicts the claim (and the repository's own
documentation): settling a quick poll increments the winning voter's profile
streak but writes no streak update to the leaderboard copy, so the two
records disagree on streak immediately after settlement (the same omission
occurs in `autoResolveMarkets`, where the leaderboard receives only the XP
increment). Concretely: one YES voter staking the whole 30-point YES pot
against a 100-point NO pot starts with streak 0 in both records and ends
with profile streak 1 but leaderboard streak 0. -/
theorem C2_leaderboard_streak_divergence :
    ∃ p2 st2, processPollE 86400001 (fun _ => ⟨"YES", "HIGH", "r"⟩)
      ⟨"q", some (.ok 0), some 1, some 1, some 1, some 30, some 100,
        some [("w", ⟨"YES", some 30⟩)], false, none, none, none, none⟩
      ⟨[("w", ⟨0, 0⟩)], [("w", ⟨0, 0⟩)]⟩ = .ok (p2, st2) ∧
    p2.isResolved = true ∧ p2.winningOutcome = some "YES" ∧
    getRec st2.profiles "w" = some ⟨130, 1⟩ ∧
    getRec st2.leaderboard "w" = some ⟨130, 0⟩ ∧
    (getRec st2.profiles "w").map UserRec.streak ≠
      (getRec st2.leaderboard "w").map UserRec.streak := by
  refine ⟨⟨"q", some (.ok 0), some 1, some 1, some 1, some 30, some 100,
      some [("w", ⟨"YES", some 30⟩)], true, some 0, some "YES", some "r",
      some "HIGH"⟩,
    ⟨[("w", ⟨130, 1⟩)], [("w", ⟨130, 0⟩)]⟩, ?_, rfl, rfl, ?_, ?_, ?_⟩
  · norm_num [processPollE, decodeCreatedAt, jsOr, jsOrNat, settlePoll,
      settleVoter, voterCredit, setRec]
    simp
  · norm_num [getRec]
  · norm_num [getRec]
  · norm_num [getRec]

/-- C4: for a binary standard market settled on outcome YES or NO with a
recorded nonzero odds percentage `w` for the winning side, a winning pledge's
payout is `amountUsd / (w / 100)` and a losing pledge's payout is the staked
amount for a principal-protected market and 0 otherwise. -/
theorem C4_binary_payout (m : StdMarket) (st : MState) (pl : Pledge)
    (w : String) (ω : ℚ)
    (hbin : ¬ m.marketStructure = some "multi-option")
    (hw : w = "YES" ∨ w = "NO")
    (hodds : (if w = "YES" then m.yesPercent else m.noPercent) = some ω)
    (hω : ω ≠ 0) :
    (pl.pick = w →
      (settlePledge m w st pl).1.payout = some (pl.amountUsd / (ω / 100))) ∧
    (pl.pick ≠ w →
      (settlePledge m w st pl).1.payout =
        some (if m.isNoLoss then pl.amountUsd else 0)) := by
  have hoddsEq : winningOddsOf m w = ω := by
    unfold winningOddsOf
    rw [if_neg hbin]
    rcases hw with h | h <;> subst h
    · simp only [eq_self_iff_true, if_true] at hodds ⊢
      rw [hodds]
      simp [jsOr, hω]
    · have hne : ¬ (("NO" : String) = "YES") := by decide
      rw [if_neg hne]
      rw [if_neg hne] at hodds
      rw [hodds]
      simp [jsOr, hω]
  constructor
  · intro hpick
    simp only [settlePledge, hoddsEq]
    simp [hpick]
  · intro hpick
    simp only [settlePledge, hoddsEq]
    simp [hpick]

/-- Witness for C4: the spec scenario — winning side odds 40%, a $100 winning
stake pays exactly $250; a $100 losing stake pays $0 on a loss-bearing market
and $100 on a principal-protected one. -/
theorem C4_binary_payout_witness :
    ((settlePledge ⟨"m1", "X happens?", none, [], some 60, some 40, false,
        false, 5, none⟩ "NO" ⟨[("u", ⟨0, 0, 0, 0, 0⟩)], [("u", ⟨0, 0⟩)]⟩
        ⟨"m1", "u", "NO", 100, "USD", false, none, none⟩).1.payout =
      some ((100 : ℚ) / (40 / 100))) ∧
    ((100 : ℚ) / (40 / 100) = 250) ∧
    ((settlePledge ⟨"m1", "X happens?", none, [], some 60, some 40, false,
        false, 5, none⟩ "NO" ⟨[("u", ⟨0, 0, 0, 0, 0⟩)], [("u", ⟨0, 0⟩)]⟩
        ⟨"m1", "u", "YES", 100, "USD", false, none, none⟩).1.payout =
      some (if (false : Bool) then (100 : ℚ) else 0)) ∧
    ((settlePledge ⟨"m2", "X happens?", none, [], some 60, some 40, true,
        false, 5, none⟩ "NO" ⟨[("u", ⟨0, 0, 0, 0, 0⟩)], [("u", ⟨0, 0⟩)]⟩
        ⟨"m2", "u", "YES", 100, "USD", false, none, none⟩).1.payout =
      some (if (true : Bool) then (100 : ℚ) else 0)) :=
  ⟨(C4_binary_payout ⟨"m1", "X happens?", none, [], some 60, some 40, false,
      false, 5, none⟩ ⟨[("u", ⟨0, 0, 0, 0, 0⟩)], [("u", ⟨0, 0⟩)]⟩
      ⟨"m1", "u", "NO", 100, "USD", false, none, none⟩ "NO" 40
      (by decide) (Or.inr rfl) (by decide) (by norm_num)).1 rfl,
    by norm_num,
    (C4_binary_payout ⟨"m1", "X happens?", none, [], some 60, some 40, false,
      false, 5, none⟩ ⟨[("u", ⟨0, 0, 0, 0, 0⟩)], [("u", ⟨0, 0⟩)]⟩
      ⟨"m1", "u", "YES", 100, "USD", false, none, none⟩ "NO" 40
      (by decide) (Or.inr rfl) (by decide) (by norm_num)).2 (by decide),
    (C4_binary_payout ⟨"m2", "X happens?", none, [], some 60, some 40, true,
      false, 5, none⟩ ⟨[("u", ⟨0, 0, 0, 0, 0⟩)], [("u", ⟨0, 0⟩)]⟩
      ⟨"m2", "u", "YES", 100, "USD", false, none, none⟩ "NO" 40
      (by decide) (Or.inr rfl) (by decide) (by norm_num)).2 (by decide)⟩

/-- C10: settlement odds fall back to defaults when the snapshot is absent:
a binary market with missing/zero `yesPercent` settles YES winners at 60%,
one with missing/zero `noPercent` settles NO winners at 40%, and a
multi-option market whose winning option record cannot be found uses 100%
(winner payout equals stake); moreover a due binary market with no recorded
odds at all is still settled (marked resolved), never skipped. -/
theorem C10_default_odds :
    (∀ m : StdMarket, ¬ m.marketStructure = some "multi-option" →
      (m.yesPercent = none ∨ m.yesPercent = some 0) →
      winningOddsOf m "YES" = 60) ∧
    (∀ m : StdMarket, ¬ m.marketStructure = some "multi-option" →
      (m.noPercent = none ∨ m.noPercent = some 0) →
      winningOddsOf m "NO" = 40) ∧
    (∀ (m : StdMarket) (w : String) (st : MState) (pl : Pledge),
      m.marketStructure = some "multi-option" →
      (∀ opt ∈ m.options, opt.id ≠ w) →
      winningOddsOf m w = 100 ∧
      (pl.pick = w →
        (settlePledge m w st pl).1.payout = some pl.amountUsd)) ∧
    (∀ (today : ℕ) (ai : StdMarket → Except String String) (m : StdMarket)
        (pledges : List Pledge) (st : MState) (raw : String),
      m.isResolved = false → m.resolutionDate ≤ today →
      ai m = .ok raw → ¬ m.marketStructure = some "multi-option" →
      jsToUpper (jsTrim raw) = "YES" →
      (marketStep today ai m pledges st).1.isResolved = true) := by
  have hfind : ∀ (m : StdMarket) (w : String),
      (∀ opt ∈ m.options, opt.id ≠ w) →
      m.options.find? (fun opt => opt.id = w) = none := by
    intro m w h
    apply List.find?_eq_none.mpr
    intro opt hopt
    simpa using h opt hopt
  refine ⟨?_, ?_, ?_, ?_⟩
  · intro m hbin hy
    unfold winningOddsOf
    rw [if_neg hbin, if_pos rfl]
    rcases hy with h | h <;> simp [h, jsOr]
  · intro m hbin hn
    unfold winningOddsOf
    rw [if_neg hbin, if_neg (by decide : ¬ (("NO" : String) = "YES"))]
    rcases hn with h | h <;> simp [h, jsOr]
  · intro m w st pl hms hno
    have hodds : winningOddsOf m w = 100 := by
      unfold winningOddsOf
      rw [if_pos hms, hfind m w hno]
    refine ⟨hodds, ?_⟩
    intro hpick
    simp only [settlePledge, hodds]
    simp [hpick]
  · intro today ai m pledges st raw hnr hdue hai hbin hYES
    have hbin2 : ¬ (m.marketStructure = some "multi-option" ∧
        m.options ≠ []) := by
      intro hh
      exact hbin hh.1
    unfold marketStep
    rw [hnr]
    simp only [Bool.false_eq_true, if_false, if_pos hdue]
    unfold processMarketE
    rw [hai]
    simp only [if_neg hbin2, hYES, eq_self_iff_true, true_or, if_true]

/-- Witness for C10 at concrete markets: a binary market with no odds fields
settles YES at 60 and NO at 40; a multi-option market whose recorded winning
option is missing pays a $70 winner exactly $70; and a due binary market with
no odds snapshot is settled, not skipped. -/
theorem C10_default_odds_witness :
    winningOddsOf ⟨"m1", "T", none, [], none, none, false, false, 3, none⟩
      "YES" = 60 ∧
    winningOddsOf ⟨"m1", "T", none, [], none, some 0, false, false, 3, none⟩
      "NO" = 40 ∧
    winningOddsOf ⟨"m2", "T", some "multi-option", [⟨"opt_0", "A", 30⟩],
      none, none, false, false, 3, none⟩ "opt_7" = 100 ∧
    (settlePledge ⟨"m2", "T", some "multi-option", [⟨"opt_0", "A", 30⟩],
      none, none, false, false, 3, none⟩ "opt_7"
      ⟨[("u", ⟨0, 0, 0, 0, 0⟩)], [("u", ⟨0, 0⟩)]⟩
      ⟨"m2", "u", "opt_7", 70, "USD", false, none, none⟩).1.payout =
      some (70 : ℚ) ∧
    (marketStep 9 (fun _ => .ok "YES")
      ⟨"m1", "T", none, [], none, none, false, false, 3, none⟩ []
      ⟨[], []⟩).1.isResolved = true := by
  have h := C10_default_odds
  refine ⟨h.1 _ (by decide) (Or.inl rfl), h.2.1 _ (by decide) (Or.inr rfl),
    (h.2.2.1 ⟨"m2", "T", some "multi-option", [⟨"opt_0", "A", 30⟩],
      none, none, false, false, 3, none⟩ "opt_7"
      ⟨[("u", ⟨0, 0, 0, 0, 0⟩)], [("u", ⟨0, 0⟩)]⟩
      ⟨"m2", "u", "opt_7", 70, "USD", false, none, none⟩
      rfl (by decide)).1,
    (h.2.2.1 ⟨"m2", "T", some "multi-option", [⟨"opt_0", "A", 30⟩],
      none, none, false, false, 3, none⟩ "opt_7"
      ⟨[("u", ⟨0, 0, 0, 0, 0⟩)], [("u", ⟨0, 0⟩)]⟩
      ⟨"m2", "u", "opt_7", 70, "USD", false, none, none⟩
      rfl (by decide)).2 rfl,
    h.2.2.2 9 (fun _ => .ok "YES")
      ⟨"m1", "T", none, [], none, none, false, false, 3, none⟩ [] ⟨[], []⟩
      "YES" rfl (by norm_num) rfl (by decide) (by decide)⟩

/-- Counterexample to C6 as stated: a due multi-option market whose verifier
answer `"opt_9"` is not in the option set is normalized to AMBIGUOUS, but the
market record is NOT marked resolved — the item is skipped entirely and left
with `isResolved = false` (the claim says the market record alone is marked
resolved with the special outcome). -/
theorem C6_ambiguous_counterexample :
    normalizeMultiOutcome ["opt_0", "opt_1"] "opt_9" = "AMBIGUOUS" ∧
    processMarketE (fun _ => .ok "opt_9")
      ⟨"m1", "T", some "multi-option",
        [⟨"opt_0", "A", 30⟩, ⟨"opt_1", "B", 70⟩],
        none, none, false, false, 10, none⟩
      [⟨"m1", "u", "opt_0", 100, "USD", false, none, none⟩]
      ⟨[("u", ⟨0, 0, 0, 0, 0⟩)], [("u", ⟨0, 0⟩)]⟩ =
      .ok (⟨"m1", "T", some "multi-option",
        [⟨"opt_0", "A", 30⟩, ⟨"opt_1", "B", 70⟩],
        none, none, false, false, 10, none⟩,
        [⟨"m1", "u", "opt_0", 100, "USD", false, none, none⟩],
        ⟨[("u", ⟨0, 0, 0, 0, 0⟩)], [("u", ⟨0, 0⟩)]⟩) ∧
    (⟨"m1", "T", some "multi-option",
      [⟨"opt_0", "A", 30⟩, ⟨"opt_1", "B", 70⟩],
      none, none, false, false, 10, none⟩ : StdMarket).isResolved = false := by
  refine ⟨by decide, ?_, by decide⟩
  decide

/-- C6 (amended): for a due multi-option market whose normalized verifier
outcome is neither YES, NO, nor one of the market's option ids (in particular
for AMBIGUOUS), no settlement of stakes occurs and no write happens at all:
the market record is left unchanged — still unresolved, to be re-examined on
the next run — and no payout computation runs. -/
theorem C6_ambiguous_skip (ai : StdMarket → Except String String)
    (m : StdMarket) (pledges : List Pledge) (st : MState) (raw : String)
    (hai : ai m = .ok raw)
    (hms : m.marketStructure = some "multi-option")
    (hopts : m.options ≠ [])
    (hnotYes :
      normalizeMultiOutcome (m.options.map (fun opt => opt.id)) raw ≠ "YES")
    (hnotNo :
      normalizeMultiOutcome (m.options.map (fun opt => opt.id)) raw ≠ "NO")
    (hno : ∀ opt ∈ m.options,
      opt.id ≠ normalizeMultiOutcome (m.options.map (fun opt => opt.id)) raw) :
    processMarketE ai m pledges st = .ok (m, pledges, st) := by
  unfold processMarketE
  rw [hai]
  have hcond : m.marketStructure = some "multi-option" ∧ m.options ≠ [] :=
    ⟨hms, hopts⟩
  simp only [if_pos hcond]
  rw [if_neg]
  rintro ((h | h) | ⟨-, h⟩)
  · exact hnotYes h
  · exact hnotNo h
  · rcases List.any_eq_true.mp h with ⟨opt, hopt, hid⟩
    exact hno opt hopt (of_decide_eq_true hid)

/-- Witness for C6 (amended) at the concrete AMBIGUOUS market. -/
theorem C6_ambiguous_skip_witness :
    processMarketE (fun _ => .ok "opt_9")
      ⟨"m2", "T", some "multi-option",
        [⟨"opt_0", "A", 30⟩, ⟨"opt_1", "B", 70⟩],
        none, none, true, false, 10, none⟩
      [⟨"m2", "u", "opt_1", 50, "BNB", false, none, none⟩]
      ⟨[("u", ⟨1, 2, 3, 4, 5⟩)], [("u", ⟨4, 5⟩)]⟩ =
      .ok (⟨"m2", "T", some "multi-option",
        [⟨"opt_0", "A", 30⟩, ⟨"opt_1", "B", 70⟩],
        none, none, true, false, 10, none⟩,
        [⟨"m2", "u", "opt_1", 50, "BNB", false, none, none⟩],
        ⟨[("u", ⟨1, 2, 3, 4, 5⟩)], [("u", ⟨4, 5⟩)]⟩) :=
  C6_ambiguous_skip (fun _ => .ok "opt_9")
    ⟨"m2", "T", some "multi-option",
      [⟨"opt_0", "A", 30⟩, ⟨"opt_1", "B", 70⟩],
      none, none, true, false, 10, none⟩
    [⟨"m2", "u", "opt_1", 50, "BNB", false, none, none⟩]
    ⟨[("u", ⟨1, 2, 3, 4, 5⟩)], [("u", ⟨4, 5⟩)]⟩ "opt_9"
    rfl rfl (by decide) (by decide) (by decide) (by decide)

/-! ## Dispatcher failure-isolation lemmas -/

/-- A verifier exception on one standard market is caught by the per-item
`catch`: that market and the stores are left untouched. -/
theorem marketStep_error (today : ℕ) (ai : StdMarket → Except String String)
    (m : StdMarket) (pledges : List Pledge) (st : MState) (e : String)
    (hai : ai m = .error e) :
    marketStep today ai m pledges st = (m, pledges, st) := by
  unfold marketStep processMarketE
  rw [hai]
  by_cases h1 : m.isResolved <;> by_cases h2 : m.resolutionDate ≤ today <;>
    simp [h1, h2]

/-- The standard-markets loop processes a concatenation independently,
threading the stores. -/
theorem autoResolveMarkets_append (today : ℕ)
    (ai : StdMarket → Except String String) :
    ∀ (ms1 ms2 : List StdMarket) (pledges : List Pledge) (st : MState),
    autoResolveMarkets today ai (ms1 ++ ms2) pledges st =
      ((autoResolveMarkets today ai ms1 pledges st).1 ++
        (autoResolveMarkets today ai ms2
          (autoResolveMarkets today ai ms1 pledges st).2.1
          (autoResolveMarkets today ai ms1 pledges st).2.2).1,
       (autoResolveMarkets today ai ms2
          (autoResolveMarkets today ai ms1 pledges st).2.1
          (autoResolveMarkets today ai ms1 pledges st).2.2).2.1,
       (autoResolveMarkets today ai ms2
          (autoResolveMarkets today ai ms1 pledges st).2.1
          (autoResolveMarkets today ai ms1 pledges st).2.2).2.2)
  | [], ms2, pledges, st => by simp [autoResolveMarkets]
  | mm :: rest, ms2, pledges, st => by
    simp only [List.cons_append, autoResolveMarkets, List.append_eq]
    rw [autoResolveMarkets_append today ai rest ms2]

/-- A malformed stored timestamp makes per-poll processing throw. -/
theorem processPollE_badCreatedAt (now : ℚ) (ai : String → AIResult)
    (p : Poll) (st : PollState) (e : String)
    (hnr : p.isResolved = false) (hcr : p.createdAt = some (.error e)) :
    processPollE now ai p st = .error e := by
  unfold processPollE
  rw [hnr, hcr]
  simp [decodeCreatedAt]

/-- If any unresolved poll in the store has a malformed timestamp, the whole
quick-poll loop throws. -/
theorem goPolls_error (now : ℚ) (ai : String → AIResult) (bp : Poll)
    (e : String) (hbr : bp.isResolved = false)
    (hbc : bp.createdAt = some (.error e)) :
    ∀ (polls : List Poll) (st : PollState), bp ∈ polls →
    ∃ e2, goPolls now ai polls st = .error e2
  | [], _, hmem => absurd hmem (List.not_mem_nil bp)
  | q :: rest, st, hmem => by
    rcases List.mem_cons.mp hmem with heq | hmem2
    · subst heq
      exact ⟨e, by
        simp [goPolls, processPollE_badCreatedAt now ai bp st e hbr hbc]⟩
    · cases hq : processPollE now ai q st with
      | error er => exact ⟨er, by simp [goPolls, hq]⟩
      | ok r =>
        obtain ⟨e2, hrec⟩ :=
          goPolls_error now ai bp e hbr hbc rest r.2 hmem2
        exact ⟨e2, by simp [goPolls, hq, hrec]⟩

/-- C7 (amended): in `autoResolveMarkets` an exception on one item (here: the
verifier call throwing) is caught per item — the failed market passes through
unchanged and every other market is processed exactly as if it were absent;
but in `autoResolveQuickPolls` the `try`/`catch` wraps the whole job and the
single batch is committed only at the end, so one throwing item (here: a
malformed stored timestamp) makes the entire run a no-op: no other due poll
receives its settlement. -/
theorem C7_per_item_isolation (today : ℕ)
    (ai : StdMarket → Except String String) (ms1 ms2 : List StdMarket)
    (m : StdMarket) (pledges : List Pledge) (st : MState) (e : String)
    (now : ℚ) (pai : String → AIResult) (polls : List Poll)
    (pst : PollState) (bp : Poll) (e2 : String)
    (hai : ai m = .error e)
    (hmem : bp ∈ polls) (hbr : bp.isResolved = false)
    (hbc : bp.createdAt = some (.error e2)) :
    autoResolveMarkets today ai (ms1 ++ m :: ms2) pledges st =
      ((autoResolveMarkets today ai ms1 pledges st).1 ++
        m :: (autoResolveMarkets today ai ms2
          (autoResolveMarkets today ai ms1 pledges st).2.1
          (autoResolveMarkets today ai ms1 pledges st).2.2).1,
       (autoResolveMarkets today ai ms2
          (autoResolveMarkets today ai ms1 pledges st).2.1
          (autoResolveMarkets today ai ms1 pledges st).2.2).2.1,
       (autoResolveMarkets today ai ms2
          (autoResolveMarkets today ai ms1 pledges st).2.1
          (autoResolveMarkets today ai ms1 pledges st).2.2).2.2) ∧
    autoResolveQuickPolls now pai polls pst = (polls, pst) := by
  constructor
  · rw [autoResolveMarkets_append today ai ms1 (m :: ms2) pledges st]
    simp only [autoResolveMarkets,
      marketStep_error today ai m _ _ e hai]
  · obtain ⟨e3, herr⟩ :=
      goPolls_error now pai bp e2 hbr hbc polls pst hmem
    unfold autoResolveQuickPolls
    rw [herr]

/-- Counterexample to C7 as stated: the quick-poll job processes a store
whose first due poll has a malformed timestamp; the second poll is due and
would resolve (to `NO_VOTES`) if processed alone, yet the run leaves the
entire store untouched — one item's exception blocks settlement of the
others. -/
theorem C7_counterexample :
    autoResolveQuickPolls 86400001 (fun _ => ⟨"YES", "HIGH", "r"⟩)
      [⟨"bad", some (.error "boom"), some 1, some 1, some 1, some 10,
        some 10, none, false, none, none, none, none⟩,
       ⟨"good", some (.ok 0), some 1, none, none, none, none, none, false,
        none, none, none, none⟩]
      ⟨[], []⟩ =
      ([⟨"bad", some (.error "boom"), some 1, some 1, some 1, some 10,
        some 10, none, false, none, none, none, none⟩,
       ⟨"good", some (.ok 0), some 1, none, none, none, none, none, false,
        none, none, none, none⟩], ⟨[], []⟩) ∧
    processPollE 86400001 (fun _ => ⟨"YES", "HIGH", "r"⟩)
      ⟨"good", some (.ok 0), some 1, none, none, none, none, none, false,
        none, none, none, none⟩ ⟨[], []⟩ =
      .ok (⟨"good", some (.ok 0), some 1, none, none, none, none, none, true,
        none, some "NO_VOTES", some "No votes cast", none⟩, ⟨[], []⟩) := by
  constructor
  · decide
  · norm_num [processPollE, decodeCreatedAt, jsOr]

/-- Witness for C7 (amended) at a concrete one-market store with a throwing
verifier and a concrete poll store with a malformed timestamp. -/
theorem C7_per_item_isolation_witness :
    autoResolveMarkets 5 (fun _ => .error "x")
      ([] ++ ⟨"m1", "T", none, [], some 60, some 40, false, false, 3, none⟩ ::
        []) [] ⟨[], []⟩ =
      ((autoResolveMarkets 5 (fun _ => .error "x") [] [] ⟨[], []⟩).1 ++
        ⟨"m1", "T", none, [], some 60, some 40, false, false, 3, none⟩ ::
        (autoResolveMarkets 5 (fun _ => .error "x") []
          (autoResolveMarkets 5 (fun _ => .error "x") [] [] ⟨[], []⟩).2.1
          (autoResolveMarkets 5 (fun _ => .error "x") [] [] ⟨[], []⟩).2.2).1,
       (autoResolveMarkets 5 (fun _ => .error "x") []
          (autoResolveMarkets 5 (fun _ => .error "x") [] [] ⟨[], []⟩).2.1
          (autoResolveMarkets 5 (fun _ => .error "x") [] [] ⟨[], []⟩).2.2).2.1,
       (autoResolveMarkets 5 (fun _ => .error "x") []
          (autoResolveMarkets 5 (fun _ => .error "x") [] [] ⟨[], []⟩).2.1
          (autoResolveMarkets 5 (fun _ => .error "x") [] [] ⟨[], []⟩).2.2).2.2) ∧
    autoResolveQuickPolls 99 (fun _ => ⟨"NO", "HIGH", "y"⟩)
      [⟨"b", some (.error "boom"), none, none, none, none, none, none, false,
        none, none, none, none⟩] ⟨[], []⟩ =
      ([⟨"b", some (.error "boom"), none, none, none, none, none, none,
        false, none, none, none, none⟩], ⟨[], []⟩) :=
  C7_per_item_isolation 5 (fun _ => .error "x") [] []
    ⟨"m1", "T", none, [], some 60, some 40, false, false, 3, none⟩ [] ⟨[], []⟩
    "x" 99 (fun _ => ⟨"NO", "HIGH", "y"⟩)
    [⟨"b", some (.error "boom"), none, none, none, none, none, none, false,
      none, none, none, none⟩] ⟨[], []⟩
    ⟨"b", some (.error "boom"), none, none, none, none, none, none, false,
      none, none, none, none⟩ "boom"
    rfl (List.mem_singleton.mpr rfl) rfl rfl

/-- C8 (amended): with an indecisive verifier and `retryAttempts ≥ 5`, a due
quick poll with votes is resolved by the deterministic majority-vote fallback
(YES if yes-votes exceed no-votes, NO if fewer, TIE on an exact tie), and a
tie settles by returning every voter's staked XP with no winner; a due
quick-play market in the same situation is instead marked resolved as
`UNRESOLVABLE`, with no majority rule and no settlement. -/
theorem C8_fallback_rule (now : ℚ) (ai : String → AIResult) (st : PollState)
    (p : Poll) (t : ℚ) (qp : QuickPlay) (exp : ℚ)
    (hnr : p.isResolved = false)
    (hcr : p.createdAt = some (.ok t))
    (hdue : t < now - jsOr p.resolutionHours 24 * 3600000)
    (hv : jsOr p.yesVotes 0 + jsOr p.noVotes 0 ≠ 0)
    (hai : (ai p.question).outcome = "UNKNOWN" ∨
      (ai p.question).confidence = "LOW")
    (hra : ¬ jsOrNat p.retryAttempts 0 < 5)
    (hqnr : qp.isResolved = false) (hqexp : qp.expiresAt = some exp)
    (hqdue : exp < now)
    (hqai : (ai qp.title).outcome = "UNKNOWN" ∨
      (ai qp.title).confidence = "LOW")
    (hqra : ¬ jsOrNat qp.retryAttempts 0 < 5) :
    (∃ p2 st2, processPollE now ai p st = .ok (p2, st2) ∧
      p2.isResolved = true ∧
      p2.winningOutcome =
        some (if jsOr p.noVotes 0 < jsOr p.yesVotes 0 then "YES"
          else if jsOr p.yesVotes 0 < jsOr p.noVotes 0 then "NO"
          else "TIE")) ∧
    (jsOr p.yesVotes 0 = jsOr p.noVotes 0 →
      ∀ (l : List (String × VoterData)) (uid : String) (v : VoterData)
        (r : UserRec),
      p.voters = some l → (l.map (fun e => e.1)).Nodup → (uid, v) ∈ l →
      getRec st.profiles uid = some r →
      ∃ p2 st2, processPollE now ai p st = .ok (p2, st2) ∧
        getRec st2.profiles uid =
          some ⟨r.xp + jsOr v.xpStaked 10, r.streak⟩) ∧
    (quickPlayStep now ai qp).isResolved = true ∧
    (quickPlayStep now ai qp).winningOutcome = some "UNRESOLVABLE" := by
  have hrun : processPollE now ai p st = .ok (settlePoll p
      (if jsOr p.noVotes 0 < jsOr p.yesVotes 0 then "YES"
        else if jsOr p.yesVotes 0 < jsOr p.noVotes 0 then "NO" else "TIE")
      ("AI uncertain after 5 attempts. Majority vote: " ++
        (if jsOr p.noVotes 0 < jsOr p.yesVotes 0 then "YES"
          else if jsOr p.yesVotes 0 < jsOr p.noVotes 0 then "NO" else "TIE"))
      (ai p.question).confidence (jsOrNat p.retryAttempts 0) st) := by
    unfold processPollE
    rw [hnr, hcr]
    simp only [Bool.false_eq_true, if_false, decodeCreatedAt, if_pos hdue,
      if_neg hv, if_neg hra]
    rw [if_pos hai]
  refine ⟨⟨_, _, hrun, by simp [settlePoll], by simp [settlePoll]⟩, ?_, ?_, ?_⟩
  · intro htie l uid v r hvl hnd hmem hget
    have hfo : (if jsOr p.noVotes 0 < jsOr p.yesVotes 0 then "YES"
        else if jsOr p.yesVotes 0 < jsOr p.noVotes 0 then "NO" else "TIE") =
        "TIE" := by
      rw [htie]
      simp
    rw [hfo] at hrun
    have hst2 : (settlePoll p "TIE"
        ("AI uncertain after 5 attempts. Majority vote: " ++ "TIE")
        (ai p.question).confidence (jsOrNat p.retryAttempts 0) st).2 =
        l.foldl tieReturnVoter st := by
      simp only [settlePoll, hvl]
      rw [if_neg (fun h => h rfl)]
    refine ⟨(settlePoll p "TIE"
        ("AI uncertain after 5 attempts. Majority vote: " ++ "TIE")
        (ai p.question).confidence (jsOrNat p.retryAttempts 0) st).1,
      (settlePoll p "TIE"
        ("AI uncertain after 5 attempts. Majority vote: " ++ "TIE")
        (ai p.question).confidence (jsOrNat p.retryAttempts 0) st).2,
      by rw [hrun], ?_⟩
    rw [hst2]
    exact foldl_tieReturnVoter_profiles l st uid v r hnd hmem hget
  · rw [quickPlayStep_unresolvable now ai qp exp hqnr hqexp hqdue hqai hqra]
  · rw [quickPlayStep_unresolvable now ai qp exp hqnr hqexp hqdue hqai hqra]

/-- Counterexample to C8 as stated: a due quick-play market with
`retryAttempts = 5` and an indecisive verifier is resolved as
`UNRESOLVABLE` — not by the majority-of-votes rule (its outcome is none of
YES/NO/TIE). -/
theorem C8_counterexample :
    (quickPlayStep 100 (fun _ => ⟨"UNKNOWN", "LOW", "x"⟩)
      ⟨"t", some 5, false, some 5, none, none, none⟩).isResolved = true ∧
    (quickPlayStep 100 (fun _ => ⟨"UNKNOWN", "LOW", "x"⟩)
      ⟨"t", some 5, false, some 5, none, none, none⟩).winningOutcome =
      some "UNRESOLVABLE" ∧
    ("UNRESOLVABLE" : String) ≠ "YES" ∧ ("UNRESOLVABLE" : String) ≠ "NO" ∧
    ("UNRESOLVABLE" : String) ≠ "TIE" := by
  refine ⟨?_, ?_, by decide, by decide, by decide⟩ <;>
    norm_num [quickPlayStep, processQuickPlay, jsOrNat]

/-- Witness for C8 (amended): a concrete tied, retry-exhausted poll resolves
TIE and returns voter `a` exactly the staked 10 XP; a concrete
retry-exhausted quick play resolves `UNRESOLVABLE`. -/
theorem C8_fallback_rule_witness :
    (∃ p2 st2, processPollE 86400001 (fun _ => ⟨"UNKNOWN", "LOW", "x"⟩)
        ⟨"q", some (.ok 0), some 1, some 2, some 2, some 20, some 20,
          some [("a", ⟨"YES", some 10⟩), ("b", ⟨"NO", some 10⟩)], false,
          some 5, none, none, none⟩
        ⟨[("a", ⟨3, 1⟩), ("b", ⟨4, 2⟩)], [("a", ⟨3, 1⟩), ("b", ⟨4, 2⟩)]⟩ =
        .ok (p2, st2) ∧
      p2.isResolved = true ∧
      p2.winningOutcome =
        some (if jsOr (some (2 : ℚ)) 0 < jsOr (some (2 : ℚ)) 0 then "YES"
          else if jsOr (some (2 : ℚ)) 0 < jsOr (some (2 : ℚ)) 0 then "NO"
          else "TIE")) ∧
    (∃ p2 st2, processPollE 86400001 (fun _ => ⟨"UNKNOWN", "LOW", "x"⟩)
        ⟨"q", some (.ok 0), some 1, some 2, some 2, some 20, some 20,
          some [("a", ⟨"YES", some 10⟩), ("b", ⟨"NO", some 10⟩)], false,
          some 5, none, none, none⟩
        ⟨[("a", ⟨3, 1⟩), ("b", ⟨4, 2⟩)], [("a", ⟨3, 1⟩), ("b", ⟨4, 2⟩)]⟩ =
        .ok (p2, st2) ∧
      getRec st2.profiles "a" =
        some ⟨(3 : ℚ) + jsOr (some (10 : ℚ)) 10, 1⟩) ∧
    (quickPlayStep 86400001 (fun _ => ⟨"UNKNOWN", "LOW", "x"⟩)
      ⟨"t", some 7, false, some 6, none, none, none⟩).isResolved = true ∧
    (quickPlayStep 86400001 (fun _ => ⟨"UNKNOWN", "LOW", "x"⟩)
      ⟨"t", some 7, false, some 6, none, none, none⟩).winningOutcome =
      some "UNRESOLVABLE" := by
  have h := C8_fallback_rule 86400001 (fun _ => ⟨"UNKNOWN", "LOW", "x"⟩)
    ⟨[("a", ⟨3, 1⟩), ("b", ⟨4, 2⟩)], [("a", ⟨3, 1⟩), ("b", ⟨4, 2⟩)]⟩
    ⟨"q", some (.ok 0), some 1, some 2, some 2, some 20, some 20,
      some [("a", ⟨"YES", some 10⟩), ("b", ⟨"NO", some 10⟩)], false,
      some 5, none, none, none⟩ 0
    ⟨"t", some 7, false, some 6, none, none, none⟩ 7
    rfl rfl (by norm_num [jsOr]) (by norm_num [jsOr]) (Or.inl rfl)
    (by norm_num [jsOrNat]) rfl rfl (by norm_num) (Or.inl rfl)
    (by norm_num [jsOrNat])
  refine ⟨h.1, ?_, h.2.2.1, h.2.2.2⟩
  obtain ⟨p2, st2, hrun, hget⟩ := h.2.1 rfl
    [("a", ⟨"YES", some 10⟩), ("b", ⟨"NO", some 10⟩)] "a" ⟨"YES", some 10⟩
    ⟨3, 1⟩ rfl (by decide) (by decide) (by norm_num [getRec])
  exact ⟨p2, st2, hrun, hget⟩

/-! ## Idempotence lemmas -/

/-- The `isResolved == false` query filter: a resolved poll passes through
with no writes. -/
theorem processPollE_resolved (now : ℚ) (ai : String → AIResult) (p : Poll)
    (st : PollState) (h : p.isResolved = true) :
    processPollE now ai p st = .ok (p, st) := by
  unfold processPollE
  rw [h]
  simp

/-- Any successful quick-poll run maps every already-resolved store entry to
itself. -/
theorem goPolls_pass (now : ℚ) (ai : String → AIResult) :
    ∀ (polls : List Poll) (st : PollState) (ps2 : List Poll)
      (st2 : PollState),
    goPolls now ai polls st = .ok (ps2, st2) →
    List.Forall₂ (fun a b => a.isResolved = true → b = a) polls ps2
  | [], st, ps2, st2, h => by
    simp only [goPolls, Except.ok.injEq, Prod.mk.injEq] at h
    rw [← h.1]
    exact List.Forall₂.nil
  | p :: rest, st, ps2, st2, h => by
    cases hp : processPollE now ai p st with
    | error e => simp [goPolls, hp] at h
    | ok r =>
      cases hr : goPolls now ai rest r.2 with
      | error e => simp [goPolls, hp, hr] at h
      | ok r2 =>
        have hps2 : ps2 = r.1 :: r2.1 := by
          simp only [goPolls, hp, hr, Except.ok.injEq, Prod.mk.injEq] at h
          exact h.1.symm
        subst hps2
        constructor
        · intro hres
          have := (processPollE_resolved now ai p st hres).symm.trans hp
          simp only [Except.ok.injEq] at this
          rw [← this]
        · exact goPolls_pass now ai rest r.2 r2.1 r2.2
            (by rw [hr])

/-- A store in which every poll is resolved makes the quick-poll run a
no-op. -/
theorem goPolls_allResolved (now : ℚ) (ai : String → AIResult) :
    ∀ (polls : List Poll) (st : PollState),
    (∀ p ∈ polls, p.isResolved = true) →
    goPolls now ai polls st = .ok (polls, st)
  | [], _, _ => rfl
  | p :: rest, st, h => by
    have hp := processPollE_resolved now ai p st (h p (List.mem_cons_self p rest))
    have hr := goPolls_allResolved now ai rest st
      (fun q hq => h q (List.mem_cons_of_mem p hq))
    simp [goPolls, hp, hr]

/-- The `isResolved == false` query filter for standard markets: a resolved
market passes through with no writes. -/
theorem marketStep_resolved (today : ℕ)
    (ai : StdMarket → Except String String) (m : StdMarket)
    (pledges : List Pledge) (st : MState) (h : m.isResolved = true) :
    marketStep today ai m pledges st = (m, pledges, st) := by
  unfold marketStep
  rw [h]
  simp

/-- Any standard-markets run maps every already-resolved store entry to
itself. -/
theorem autoResolveMarkets_pass (today : ℕ)
    (ai : StdMarket → Except String String) :
    ∀ (ms : List StdMarket) (pledges : List Pledge) (st : MState),
    List.Forall₂ (fun a b => a.isResolved = true → b = a) ms
      (autoResolveMarkets today ai ms pledges st).1
  | [], _, _ => List.Forall₂.nil
  | m :: rest, pledges, st => by
    simp only [autoResolveMarkets]
    constructor
    · intro hres
      rw [marketStep_resolved today ai m pledges st hres]
    · exact autoResolveMarkets_pass today ai rest _ _

/-- A store in which every market is resolved makes the markets run a
no-op. -/
theorem autoResolveMarkets_allResolved (today : ℕ)
    (ai : StdMarket → Except String String) :
    ∀ (ms : List StdMarket) (pledges : List Pledge) (st : MState),
    (∀ m ∈ ms, m.isResolved = true) →
    autoResolveMarkets today ai ms pledges st = (ms, pledges, st)
  | [], _, _, _ => rfl
  | m :: rest, pledges, st, h => by
    have hm := marketStep_resolved today ai m pledges st
      (h m (List.mem_cons_self m rest))
    have hr := autoResolveMarkets_allResolved today ai rest pledges st
      (fun q hq => h q (List.mem_cons_of_mem m hq))
    simp [autoResolveMarkets, hm, hr]

/-- C9: running a resolution job twice settles each due item at most once.
Settlement sets `isResolved := true` in the same atomic update as its
payouts (`settlePoll`/`processMarketE` produce both in one step); every item
resolved after the first run is excluded by the `isResolved == false`
selection filter of the second run, which maps it to itself with no store
writes; and if the first run resolved everything, the second run is a
complete no-op for both the documents and the balance stores. -/
theorem C9_second_run_noop (now : ℚ) (pai : String → AIResult)
    (polls ps1 ps2 : List Poll) (pst pst1 pst2 : PollState)
    (today : ℕ) (ai : StdMarket → Except String String)
    (ms : List StdMarket) (pledges : List Pledge) (mst : MState)
    (h1 : goPolls now pai polls pst = .ok (ps1, pst1))
    (h2 : goPolls now pai ps1 pst1 = .ok (ps2, pst2)) :
    List.Forall₂ (fun a b => a.isResolved = true → b = a) ps1 ps2 ∧
    ((∀ p ∈ ps1, p.isResolved = true) → ps2 = ps1 ∧ pst2 = pst1) ∧
    (∀ (q : Poll) (qst : PollState), q.isResolved = true →
      processPollE now pai q qst = .ok (q, qst)) ∧
    List.Forall₂ (fun a b => a.isResolved = true → b = a)
      (autoResolveMarkets today ai ms pledges mst).1
      (autoResolveMarkets today ai
        (autoResolveMarkets today ai ms pledges mst).1
        (autoResolveMarkets today ai ms pledges mst).2.1
        (autoResolveMarkets today ai ms pledges mst).2.2).1 ∧
    ((∀ m ∈ (autoResolveMarkets today ai ms pledges mst).1,
        m.isResolved = true) →
      autoResolveMarkets today ai
        (autoResolveMarkets today ai ms pledges mst).1
        (autoResolveMarkets today ai ms pledges mst).2.1
        (autoResolveMarkets today ai ms pledges mst).2.2 =
      ((autoResolveMarkets today ai ms pledges mst).1,
       (autoResolveMarkets today ai ms pledges mst).2.1,
       (autoResolveMarkets today ai ms pledges mst).2.2)) ∧
    (∀ (m : StdMarket) (ps : List Pledge) (s : MState),
      m.isResolved = true → marketStep today ai m ps s = (m, ps, s)) := by
  refine ⟨goPolls_pass now pai ps1 pst1 ps2 pst2 h2, ?_,
    (fun q qst hq => processPollE_resolved now pai q qst hq),
    autoResolveMarkets_pass today ai _ _ _, ?_,
    (fun m ps s hm => marketStep_resolved today ai m ps s hm)⟩
  · intro hall
    have hno := goPolls_allResolved now pai ps1 pst1 hall
    have := hno.symm.trans h2
    simp only [Except.ok.injEq, Prod.mk.injEq] at this
    exact ⟨this.1.symm, this.2.symm⟩
  · intro hall
    exact autoResolveMarkets_allResolved today ai _ _ _ hall

/-- Witness for C9: a one-poll store (zero votes, resolves `NO_VOTES` on the
first run) and a one-market store (binary YES, no pledges); the second run
leaves both stores exactly as the first run left them. -/
theorem C9_second_run_noop_witness :
    List.Forall₂ (fun a b => a.isResolved = true → b = a)
      [(⟨"g", some (.ok 0), some 1, none, none, none, none, none, true,
        none, some "NO_VOTES", some "No votes cast", none⟩ : Poll)]
      [(⟨"g", some (.ok 0), some 1, none, none, none, none, none, true,
        none, some "NO_VOTES", some "No votes cast", none⟩ : Poll)] ∧
    ((∀ p ∈ [(⟨"g", some (.ok 0), some 1, none, none, none, none, none, true,
        none, some "NO_VOTES", some "No votes cast", none⟩ : Poll)],
        p.isResolved = true) →
      [(⟨"g", some (.ok 0), some 1, none, none, none, none, none, true,
        none, some "NO_VOTES", some "No votes cast", none⟩ : Poll)] =
        [⟨"g", some (.ok 0), some 1, none, none, none, none, none, true,
          none, some "NO_VOTES", some "No votes cast", none⟩] ∧
      (⟨[], []⟩ : PollState) = ⟨[], []⟩) ∧
    (∀ (q : Poll) (qst : PollState), q.isResolved = true →
      processPollE 86400001 (fun _ => ⟨"YES", "HIGH", "r"⟩) q qst =
        .ok (q, qst)) ∧
    List.Forall₂ (fun a b => a.isResolved = true → b = a)
      (autoResolveMarkets 9 (fun _ => .ok "YES")
        [⟨"m1", "T", none, [], some 60, some 40, false, false, 3, none⟩]
        [] ⟨[], []⟩).1
      (autoResolveMarkets 9 (fun _ => .ok "YES")
        (autoResolveMarkets 9 (fun _ => .ok "YES")
          [⟨"m1", "T", none, [], some 60, some 40, false, false, 3, none⟩]
          [] ⟨[], []⟩).1
        (autoResolveMarkets 9 (fun _ => .ok "YES")
          [⟨"m1", "T", none, [], some 60, some 40, false, false, 3, none⟩]
          [] ⟨[], []⟩).2.1
        (autoResolveMarkets 9 (fun _ => .ok "YES")
          [⟨"m1", "T", none, [], some 60, some 40, false, false, 3, none⟩]
          [] ⟨[], []⟩).2.2).1 ∧
    ((∀ m ∈ (autoResolveMarkets 9 (fun _ => .ok "YES")
        [⟨"m1", "T", none, [], some 60, some 40, false, false, 3, none⟩]
        [] ⟨[], []⟩).1, m.isResolved = true) →
      autoResolveMarkets 9 (fun _ => .ok "YES")
        (autoResolveMarkets 9 (fun _ => .ok "YES")
          [⟨"m1", "T", none, [], some 60, some 40, false, false, 3, none⟩]
          [] ⟨[], []⟩).1
        (autoResolveMarkets 9 (fun _ => .ok "YES")
          [⟨"m1", "T", none, [], some 60, some 40, false, false, 3, none⟩]
          [] ⟨[], []⟩).2.1
        (autoResolveMarkets 9 (fun _ => .ok "YES")
          [⟨"m1", "T", none, [], some 60, some 40, false, false, 3, none⟩]
          [] ⟨[], []⟩).2.2 =
      ((autoResolveMarkets 9 (fun _ => .ok "YES")
          [⟨"m1", "T", none, [], some 60, some 40, false, false, 3, none⟩]
          [] ⟨[], []⟩).1,
       (autoResolveMarkets 9 (fun _ => .ok "YES")
          [⟨"m1", "T", none, [], some 60, some 40, false, false, 3, none⟩]
          [] ⟨[], []⟩).2.1,
       (autoResolveMarkets 9 (fun _ => .ok "YES")
          [⟨"m1", "T", none, [], some 60, some 40, false, false, 3, none⟩]
          [] ⟨[], []⟩).2.2)) ∧
    (∀ (m : StdMarket) (ps : List Pledge) (s : MState),
      m.isResolved = true →
      marketStep 9 (fun _ => .ok "YES") m ps s = (m, ps, s)) :=
  C9_second_run_noop 86400001 (fun _ => ⟨"YES", "HIGH", "r"⟩)
    [⟨"g", some (.ok 0), some 1, none, none, none, none, none, false,
      none, none, none, none⟩]
    [⟨"g", some (.ok 0), some 1, none, none, none, none, none, true,
      none, some "NO_VOTES", some "No votes cast", none⟩]
    [⟨"g", some (.ok 0), some 1, none, none, none, none, none, true,
      none, some "NO_VOTES", some "No votes cast", none⟩]
    ⟨[], []⟩ ⟨[], []⟩ ⟨[], []⟩
    9 (fun _ => .ok "YES")
    [⟨"m1", "T", none, [], some 60, some 40, false, false, 3, none⟩]
    [] ⟨[], []⟩
    (by norm_num [goPolls, processPollE, decodeCreatedAt, jsOr])
    (by norm_num [goPolls, processPollE])

end Predora
